import Mathlib

/-!
Shallow embedding of the Magma session manager's per-subscriber session
state (lte/gateway/c/session_manager/SessionState.cpp) together with the
parts of its environment that the file uses.  C++ `std::unordered_map` /
`std::map` values are modelled as association lists with unique keys,
`std::set` as duplicate-free lists, machine integers as `Nat` (byte
counters and epoch seconds never overflow in the modelled scenarios), and
fallible operations return `Option`/`Bool` exactly as the source does.
Components of the repository whose sources are not part of this excerpt
(SessionCredit.cpp, ChargingGrant.cpp, RuleStore.cpp, StoredState.h) are
modelled from the specification and marked `Modelled from the spec:` in
their doc comments.
-/

namespace MagmaSession

/-- Association-list lookup: first binding of key `k`. -/
def alookup {κ ν : Type} [DecidableEq κ] (k : κ) : List (κ × ν) → Option ν
  | [] => none
  | (k', v) :: rest => if k' = k then some v else alookup k rest

/-- Association-list update: overwrite the binding of `k`, or append it. -/
def aset {κ ν : Type} [DecidableEq κ] (k : κ) (v : ν) : List (κ × ν) → List (κ × ν)
  | [] => [(k, v)]
  | (k', v') :: rest => if k' = k then (k, v) :: rest else (k', v') :: aset k v rest

/-- Association-list erase: drop the first binding of `k`. -/
def aerase {κ ν : Type} [DecidableEq κ] (k : κ) : List (κ × ν) → List (κ × ν)
  | [] => []
  | (k', v') :: rest => if k' = k then rest else (k', v') :: aerase k rest

/-- Set-like insert on a list: append `x` unless already present
(models `std::set::insert` / duplicate-free containers). -/
def sinsert {α : Type} [DecidableEq α] (x : α) (l : List α) : List α :=
  if x ∈ l then l else l ++ [x]

/-- Set-like erase on a list: remove the first occurrence of `x`. -/
def serase {α : Type} [DecidableEq α] (x : α) : List α → List α
  | [] => []
  | y :: rest => if y = x then rest else y :: serase x rest

/-- Session finite-state-machine states (`SessionFsmState`). -/
inductive SessionFsmState
  | SESSION_ACTIVE
  | SESSION_TERMINATION_SCHEDULED
  | SESSION_RELEASED
  | SESSION_TERMINATED
deriving DecidableEq, Repr

/-- Per-grant data-plane service state (`ServiceState`). -/
inductive ServiceState
  | SERVICE_ENABLED
  | SERVICE_NEEDS_DEACTIVATION
  | SERVICE_NEEDS_ACTIVATION
  | SERVICE_REDIRECTED
  | SERVICE_RESTRICTED
  | SERVICE_DISABLED
deriving DecidableEq, Repr

/-- Reauthorization state of a charging grant (`ReAuthState`). -/
inductive ReAuthState
  | REAUTH_NOT_NEEDED
  | REAUTH_REQUIRED
  | REAUTH_PROCESSING
deriving DecidableEq, Repr

/-- Action a charging grant asks the data plane to take
(`ServiceActionType`). -/
inductive ServiceActionType
  | CONTINUE_SERVICE
  | TERMINATE_SERVICE
  | ACTIVATE_SERVICE
  | REDIRECT
  | RESTRICT_ACCESS
deriving DecidableEq, Repr

/-- Credit bucket selectors (`Bucket`). -/
inductive Bucket
  | USED_TX
  | USED_RX
  | ALLOWED_TX
  | ALLOWED_RX
  | REPORTING_TX
  | REPORTING_RX
  | REPORTED_TX
  | REPORTED_RX
deriving DecidableEq, Repr

/-- Which directions a grant is metered against (`GrantTrackingType`);
the spec's {TOTAL, TX_ONLY, RX_ONLY, ALL}. -/
inductive GrantTrackingType
  | TOTAL
  | TX_ONLY
  | RX_ONLY
  | ALL
deriving DecidableEq, Repr

/-- Monitoring level of a usage monitor (`MonitoringLevel`). -/
inductive MonitoringLevel
  | SESSION_LEVEL
  | PCC_RULE_LEVEL
deriving DecidableEq, Repr

/-- Final-unit action carried by a final grant
(`ChargingCredit::FinalAction`). -/
inductive FinalAction
  | TERMINATE
  | REDIRECT
  | RESTRICT_ACCESS
deriving DecidableEq, Repr

/-- Event triggers tracked per session (`EventTrigger`); only
REVALIDATION_TIMEOUT is handled by the source, USAGE_REPORT marks usage
updates. -/
inductive EventTrigger
  | REVALIDATION_TIMEOUT
  | USAGE_REPORT
deriving DecidableEq, Repr

/-- State of a pending event trigger (`EventTriggerState`). -/
inductive EventTriggerState
  | PENDING
  | READY
  | CLEARED
deriving DecidableEq, Repr

/-- Reported reason of a credit usage update (`CreditUsage::UpdateType`). -/
inductive CreditUsageUpdateType
  | QUOTA_EXHAUSTED
  | VALIDITY_TIMER_EXPIRED
  | REAUTH_REQUIRED
  | TERMINATED
deriving DecidableEq, Repr

/-- Radio access technology of a session (`RATType`). -/
inductive RatType
  | TGPP_LTE
  | TGPP_WLAN
deriving DecidableEq, Repr

/-- CWF subscriber quota states (`SubscriberQuotaUpdate_Type`). -/
inductive SubscriberQuotaState
  | VALID_QUOTA
  | NO_QUOTA
  | QUOTA_TERMINATE
deriving DecidableEq, Repr

/-- Credit limit type of a charging response (`CreditLimitType`). -/
inductive CreditLimitType
  | FINITE
  | INFINITE_UNMETERED
  | INFINITE_METERED
deriving DecidableEq, Repr

/-- Charging key: (rating group, service identifier) pair (`CreditKey`). -/
structure CreditKey where
  rating_group : Nat
  service_identifier : Nat
deriving DecidableEq, Repr

/-- Activation/deactivation window of a rule (`RuleLifetime`);
`0` means no bound. -/
structure RuleLifetime where
  activation_time : Nat
  deactivation_time : Nat
deriving DecidableEq, Repr

/-- One directional credit unit of a grant (`CreditUnit`):
validity flag plus byte volume. -/
structure CreditUnit where
  is_valid : Bool
  volume : Nat
deriving DecidableEq, Repr

/-- Granted units of a grant (`GrantedUnits`): total/tx/rx units. -/
structure GrantedUnits where
  total : CreditUnit
  tx : CreditUnit
  rx : CreditUnit
deriving DecidableEq, Repr

/-- An all-invalid, zero-volume `GrantedUnits` value (proto default). -/
def GrantedUnits.empty : GrantedUnits :=
  ⟨⟨false, 0⟩, ⟨false, 0⟩, ⟨false, 0⟩⟩

/-- Redirect server carried by a REDIRECT final action
(`RedirectServer`). -/
structure RedirectServer where
  redirect_server_address : String
deriving DecidableEq, Repr

/-- Final-unit metadata of a grant (`FinalActionInfo`). -/
structure FinalActionInfo where
  final_action : FinalAction
  redirect_server : RedirectServer
  restrict_rules : List String
deriving DecidableEq, Repr

/-- Default final-action info (default-constructed `FinalActionInfo`). -/
def FinalActionInfo.empty : FinalActionInfo :=
  ⟨FinalAction.TERMINATE, ⟨""⟩, []⟩

/-- Modelled from the spec: the credit primitive (SessionCredit.cpp is not
part of the excerpt).  Eight byte-counter buckets, the active grant
tracking type and the most recently received granted units, per spec
section 3. -/
structure SessionCredit where
  used_tx : Nat
  used_rx : Nat
  allowed_tx : Nat
  allowed_rx : Nat
  reporting_tx : Nat
  reporting_rx : Nat
  reported_tx : Nat
  reported_rx : Nat
  grant_tracking_type : GrantTrackingType
  received_granted_units : GrantedUnits
deriving DecidableEq, Repr

/-- A fresh credit with all buckets zero. -/
def SessionCredit.init : SessionCredit :=
  ⟨0, 0, 0, 0, 0, 0, 0, 0, GrantTrackingType.TOTAL, GrantedUnits.empty⟩

/-- Bucket read of a credit (`SessionCredit::get_credit`). -/
def SessionCredit.get_credit (c : SessionCredit) : Bucket → Nat
  | Bucket.USED_TX => c.used_tx
  | Bucket.USED_RX => c.used_rx
  | Bucket.ALLOWED_TX => c.allowed_tx
  | Bucket.ALLOWED_RX => c.allowed_rx
  | Bucket.REPORTING_TX => c.reporting_tx
  | Bucket.REPORTING_RX => c.reporting_rx
  | Bucket.REPORTED_TX => c.reported_tx
  | Bucket.REPORTED_RX => c.reported_rx

/-- Modelled from the spec: `quotaExhausted(p) ⇔ used ≥ (p/100)·allowed`
under the active tracking type (spec section 3); `percent` is the
threshold in percent (80 for the usage-reporting threshold, 100 for total
exhaustion). -/
def SessionCredit.is_quota_exhausted (c : SessionCredit) (percent : Nat) : Bool :=
  match c.grant_tracking_type with
  | GrantTrackingType.TOTAL =>
      100 * (c.used_tx + c.used_rx) ≥ percent * (c.allowed_tx + c.allowed_rx)
  | GrantTrackingType.TX_ONLY => 100 * c.used_tx ≥ percent * c.allowed_tx
  | GrantTrackingType.RX_ONLY => 100 * c.used_rx ≥ percent * c.allowed_rx
  | GrantTrackingType.ALL =>
      100 * c.used_tx ≥ percent * c.allowed_tx ||
      100 * c.used_rx ≥ percent * c.allowed_rx

/-- Modelled from the spec: `currentGrantContainsZero()` — the most
recently received grant carries a zero-valued (valid) unit. -/
def SessionCredit.current_grant_contains_zero (c : SessionCredit) : Bool :=
  (c.received_granted_units.total.is_valid && c.received_granted_units.total.volume == 0) ||
  (c.received_granted_units.tx.is_valid && c.received_granted_units.tx.volume == 0) ||
  (c.received_granted_units.rx.is_valid && c.received_granted_units.rx.volume == 0)

/-- Reporting flag: a report for this credit is in flight
(`SessionCredit::is_reporting`). -/
def SessionCredit.is_reporting (c : SessionCredit) : Bool :=
  c.reporting_tx + c.reporting_rx > 0

/-- Usage pair reported for a credit (`SessionCredit::Usage`). -/
structure CreditUsagePair where
  bytes_tx : Nat
  bytes_rx : Nat
deriving DecidableEq, Repr

/-- Modelled from the spec and the merge code in
`SessionState::apply_charging_credit_update`: the per-credit journal entry
(`SessionCreditUpdateCriteria`).  `delta_*` are the bucket deltas to be
added on merge; the remaining fields mirror the grant state. -/
structure SessionCreditUpdateCriteria where
  deleted : Bool
  grant_tracking_type : GrantTrackingType
  received_granted_units : GrantedUnits
  delta_used_tx : Nat
  delta_used_rx : Nat
  delta_allowed_tx : Nat
  delta_allowed_rx : Nat
  delta_reporting_tx : Nat
  delta_reporting_rx : Nat
  delta_reported_tx : Nat
  delta_reported_rx : Nat
  is_final : Bool
  final_action_info : FinalActionInfo
  expiry_time : Nat
  reauth_state : ReAuthState
  service_state : ServiceState
deriving DecidableEq, Repr

/-- Bucket-delta read of a credit journal entry (`bucket_deltas`). -/
def SessionCreditUpdateCriteria.delta (u : SessionCreditUpdateCriteria) : Bucket → Nat
  | Bucket.USED_TX => u.delta_used_tx
  | Bucket.USED_RX => u.delta_used_rx
  | Bucket.ALLOWED_TX => u.delta_allowed_tx
  | Bucket.ALLOWED_RX => u.delta_allowed_rx
  | Bucket.REPORTING_TX => u.delta_reporting_tx
  | Bucket.REPORTING_RX => u.delta_reporting_rx
  | Bucket.REPORTED_TX => u.delta_reported_tx
  | Bucket.REPORTED_RX => u.delta_reported_rx

/-- Modelled from the spec: snapshot journal entry for a bare credit with
all deltas zero (`SessionCredit::get_update_criteria`).  The grant-level
fields take defaults; `ChargingGrant.get_update_criteria` overrides
them. -/
def SessionCredit.get_update_criteria (c : SessionCredit) : SessionCreditUpdateCriteria :=
  { deleted := false
    grant_tracking_type := c.grant_tracking_type
    received_granted_units := c.received_granted_units
    delta_used_tx := 0, delta_used_rx := 0
    delta_allowed_tx := 0, delta_allowed_rx := 0
    delta_reporting_tx := 0, delta_reporting_rx := 0
    delta_reported_tx := 0, delta_reported_rx := 0
    is_final := false
    final_action_info := FinalActionInfo.empty
    expiry_time := 0
    reauth_state := ReAuthState.REAUTH_NOT_NEEDED
    service_state := ServiceState.SERVICE_ENABLED }

/-- Modelled from the spec: `addUsed(tx, rx)` — increments the used
buckets and records the deltas in the journal entry. -/
def SessionCredit.add_used_credit (c : SessionCredit) (tx rx : Nat)
    (cuc : SessionCreditUpdateCriteria) :
    SessionCredit × SessionCreditUpdateCriteria :=
  ({ c with used_tx := c.used_tx + tx, used_rx := c.used_rx + rx },
   { cuc with delta_used_tx := cuc.delta_used_tx + tx,
              delta_used_rx := cuc.delta_used_rx + rx })

/-- Modelled from the spec: `getUsageForReport()` — returns the usage since
the last report and moves it into the reporting buckets. -/
def SessionCredit.get_usage_for_reporting (c : SessionCredit)
    (cuc : SessionCreditUpdateCriteria) :
    CreditUsagePair × SessionCredit × SessionCreditUpdateCriteria :=
  let tx := c.used_tx - c.reported_tx
  let rx := c.used_rx - c.reported_rx
  (⟨tx, rx⟩,
   { c with reporting_tx := c.reporting_tx + tx, reporting_rx := c.reporting_rx + rx },
   { cuc with delta_reporting_tx := cuc.delta_reporting_tx + tx,
              delta_reporting_rx := cuc.delta_reporting_rx + rx })

/-- Modelled from the spec: all still unreported usage, moved into the
reporting buckets (used by `make_termination_request`). -/
def SessionCredit.get_all_unreported_usage_for_reporting (c : SessionCredit)
    (cuc : SessionCreditUpdateCriteria) :
    CreditUsagePair × SessionCredit × SessionCreditUpdateCriteria :=
  SessionCredit.get_usage_for_reporting c cuc

/-- Modelled from the spec: drop the in-flight reporting buckets
(`resetReportingCredit`). -/
def SessionCredit.reset_reporting_credit (c : SessionCredit)
    (cuc : SessionCreditUpdateCriteria) :
    SessionCredit × SessionCreditUpdateCriteria :=
  ({ c with reporting_tx := 0, reporting_rx := 0 }, cuc)

/-- Modelled from the spec: `markFailure(code)` — drops the reporting
buckets; the result code itself only drives logging. -/
def SessionCredit.mark_failure (c : SessionCredit) (_code : Nat)
    (cuc : SessionCreditUpdateCriteria) :
    SessionCredit × SessionCreditUpdateCriteria :=
  SessionCredit.reset_reporting_credit c cuc

/-- Modelled from the spec: tracking type derived from which granted units
are valid in a grant. -/
def GrantedUnits.tracking_type (gsu : GrantedUnits) : GrantTrackingType :=
  if gsu.total.is_valid then GrantTrackingType.TOTAL
  else if gsu.tx.is_valid && gsu.rx.is_valid then GrantTrackingType.ALL
  else if gsu.tx.is_valid then GrantTrackingType.TX_ONLY
  else if gsu.rx.is_valid then GrantTrackingType.RX_ONLY
  else GrantTrackingType.TOTAL

/-- Modelled from the spec: `receiveGrant` — a successful grant tops up the
allowed buckets, commits any reporting usage to reported, and stores the
received units (spec section 3 invariants). -/
def SessionCredit.receive_credit (c : SessionCredit) (gsu : GrantedUnits)
    (cuc : SessionCreditUpdateCriteria) :
    SessionCredit × SessionCreditUpdateCriteria :=
  let add_tx := (if gsu.total.is_valid then gsu.total.volume else 0) +
    (if gsu.tx.is_valid then gsu.tx.volume else 0)
  let add_rx := if gsu.rx.is_valid then gsu.rx.volume else 0
  ({ c with allowed_tx := c.allowed_tx + add_tx,
            allowed_rx := c.allowed_rx + add_rx,
            reported_tx := c.reported_tx + c.reporting_tx,
            reported_rx := c.reported_rx + c.reporting_rx,
            reporting_tx := 0, reporting_rx := 0,
            grant_tracking_type := gsu.tracking_type,
            received_granted_units := gsu },
   { cuc with delta_allowed_tx := cuc.delta_allowed_tx + add_tx,
              delta_allowed_rx := cuc.delta_allowed_rx + add_rx,
              delta_reported_tx := cuc.delta_reported_tx + c.reporting_tx,
              delta_reported_rx := cuc.delta_reported_rx + c.reporting_rx,
              grant_tracking_type := gsu.tracking_type,
              received_granted_units := gsu })

/-- Merge-side helper of `apply_charging_credit_update`: add a delta to one
bucket (`SessionCredit::add_credit`). -/
def SessionCredit.add_credit (c : SessionCredit) (amount : Nat) : Bucket → SessionCredit
  | Bucket.USED_TX => { c with used_tx := c.used_tx + amount }
  | Bucket.USED_RX => { c with used_rx := c.used_rx + amount }
  | Bucket.ALLOWED_TX => { c with allowed_tx := c.allowed_tx + amount }
  | Bucket.ALLOWED_RX => { c with allowed_rx := c.allowed_rx + amount }
  | Bucket.REPORTING_TX => { c with reporting_tx := c.reporting_tx + amount }
  | Bucket.REPORTING_RX => { c with reporting_rx := c.reporting_rx + amount }
  | Bucket.REPORTED_TX => { c with reported_tx := c.reported_tx + amount }
  | Bucket.REPORTED_RX => { c with reported_rx := c.reported_rx + amount }

/-- Charging grant wrapping a credit with final-unit metadata, reauth
state and service state (`ChargingGrant`, header fields used by
SessionState.cpp). -/
structure ChargingGrant where
  credit : SessionCredit
  is_final_grant : Bool
  final_action_info : FinalActionInfo
  reauth_state : ReAuthState
  service_state : ServiceState
  expiry_time : Nat
deriving DecidableEq, Repr

/-- Default-constructed charging grant. -/
def ChargingGrant.init : ChargingGrant :=
  ⟨SessionCredit.init, false, FinalActionInfo.empty,
   ReAuthState.REAUTH_NOT_NEEDED, ServiceState.SERVICE_ENABLED, 0⟩

/-- Modelled from the spec: journal snapshot of a grant
(`ChargingGrant::get_update_criteria`): the credit snapshot with the
grant-level fields filled in. -/
def ChargingGrant.get_update_criteria (g : ChargingGrant) : SessionCreditUpdateCriteria :=
  { g.credit.get_update_criteria with
      is_final := g.is_final_grant
      final_action_info := g.final_action_info
      expiry_time := g.expiry_time
      reauth_state := g.reauth_state
      service_state := g.service_state }

/-- Set the grant's service state and record it in the journal entry
(`ChargingGrant::set_service_state`). -/
def ChargingGrant.set_service_state (g : ChargingGrant) (st : ServiceState)
    (cuc : SessionCreditUpdateCriteria) :
    ChargingGrant × SessionCreditUpdateCriteria :=
  ({ g with service_state := st }, { cuc with service_state := st })

/-- Set the grant's reauth state and record it in the journal entry
(`ChargingGrant::set_reauth_state`). -/
def ChargingGrant.set_reauth_state (g : ChargingGrant) (st : ReAuthState)
    (cuc : SessionCreditUpdateCriteria) :
    ChargingGrant × SessionCreditUpdateCriteria :=
  ({ g with reauth_state := st }, { cuc with reauth_state := st })

/-- Modelled from the spec: the grant's service must be cut once its quota
is totally exhausted (`ChargingGrant::should_deactivate_service`). -/
def ChargingGrant.should_deactivate_service (g : ChargingGrant) : Bool :=
  g.credit.is_quota_exhausted 100

/-- Usage-reporting threshold in percent
(`SessionCredit::USAGE_REPORTING_THRESHOLD`, spec: typically 80). -/
def USAGE_REPORTING_THRESHOLD : Nat := 80

/-- Modelled from the spec: a CONTINUE grant warrants an update when a
reauth is required or the usage-reporting threshold is reached and no
report is in flight (spec section 4.3; the validity-timer trigger needs
wall-clock time, which `get_charging_updates` does not receive, and is
not modelled). -/
def ChargingGrant.get_update_type (g : ChargingGrant) : Option CreditUsageUpdateType :=
  if g.credit.is_reporting then none
  else if g.reauth_state = ReAuthState.REAUTH_REQUIRED then
    some CreditUsageUpdateType.REAUTH_REQUIRED
  else if g.credit.is_quota_exhausted USAGE_REPORTING_THRESHOLD then
    some CreditUsageUpdateType.QUOTA_EXHAUSTED
  else none

/-- Usage monitor: a credit plus its monitoring level (`Monitor`). -/
structure Monitor where
  credit : SessionCredit
  level : MonitoringLevel
deriving DecidableEq, Repr

/-- Modelled from the spec: a monitor is deleted once its quota is fully
exhausted on a final (zero-top-up) grant (spec section 3). -/
def Monitor.should_delete_monitor (m : Monitor) : Bool :=
  m.credit.is_quota_exhausted 100 && m.credit.current_grant_contains_zero

/-- Policy rule as used by SessionState.cpp (`PolicyRule` proto): id,
optional charging key (rating group 0 means none), optional monitoring key
(empty string means none), QoS marker. -/
structure PolicyRule where
  id : String
  rating_group : Nat
  service_identifier : Nat
  monitoring_key : String
  has_qos : Bool
  qci : Nat
deriving DecidableEq, Repr

/-- Modelled from the spec: the optional charging key a rule carries. -/
def PolicyRule.charging_key? (r : PolicyRule) : Option CreditKey :=
  if r.rating_group = 0 then none
  else some ⟨r.rating_group, r.service_identifier⟩

/-- Modelled from the spec: the optional monitoring key a rule carries. -/
def PolicyRule.monitoring_key? (r : PolicyRule) : Option String :=
  if r.monitoring_key = "" then none else some r.monitoring_key

/-- Rule lookup by id in a rule store (`get_rule`).  Modelled from the
spec: both the static registry and the dynamic bimap are keyed by rule
id. -/
def getRule (rules : List PolicyRule) (rid : String) : Option PolicyRule :=
  rules.find? (fun r => r.id = rid)

/-- Modelled from the spec: `get_charging_key_for_rule_id` of a rule
store. -/
def get_charging_key_for_rule_id (rules : List PolicyRule) (rid : String) :
    Option CreditKey :=
  (getRule rules rid).bind PolicyRule.charging_key?

/-- Modelled from the spec: `get_monitoring_key_for_rule_id` of a rule
store. -/
def get_monitoring_key_for_rule_id (rules : List PolicyRule) (rid : String) :
    Option String :=
  (getRule rules rid).bind PolicyRule.monitoring_key?

/-- Modelled from the spec: reverse lookup of rule ids by charging key
(`get_rule_ids_for_charging_key`). -/
def get_rule_ids_for_charging_key (rules : List PolicyRule) (k : CreditKey) :
    List String :=
  (rules.filter (fun r => r.charging_key? = some k)).map PolicyRule.id

/-- Modelled from the spec: reverse lookup of rule definitions by charging
key (`get_rule_definitions_for_charging_key`). -/
def get_rule_definitions_for_charging_key (rules : List PolicyRule) (k : CreditKey) :
    List PolicyRule :=
  rules.filter (fun r => r.charging_key? = some k)

/-- Modelled from the spec: `insert_rule` of the dynamic bimap — overwrite
the rule with the same id or append. -/
def insertRule (rules : List PolicyRule) (r : PolicyRule) : List PolicyRule :=
  if rules.any (fun q => q.id = r.id) then
    rules.map (fun q => if q.id = r.id then r else q)
  else rules ++ [r]

/-- Modelled from the spec: `remove_rule` of the dynamic bimap — remove
the rule with this id, returning it and whether anything was removed. -/
def removeRule (rules : List PolicyRule) (rid : String) :
    Bool × Option PolicyRule × List PolicyRule :=
  match getRule rules rid with
  | none => (false, none, rules)
  | some r => (true, some r, rules.filter (fun q => q.id ≠ rid))

/-- Modelled from the spec: number of rules in a store carrying a
monitoring key (`monitored_rules_count`). -/
def monitoredRulesCount (rules : List PolicyRule) : Nat :=
  (rules.filter (fun r => r.monitoring_key ≠ "")).length

/-- Common session context (`CommonSessionContext` proto fields used by
SessionState.cpp). -/
structure CommonContext where
  ue_ipv4 : String
  msisdn : String
  apn : String
  rat_type : RatType
  sid : String
deriving DecidableEq, Repr

/-- LTE-specific session context (`LTESessionContext` fields used). -/
structure LTEContext where
  bearer_id : Nat
  imei : String
  plmn_id : String
  imsi_plmn_id : String
  spgw_ipv4 : String
  user_location : String
  default_qci : Nat
deriving DecidableEq, Repr

/-- WLAN-specific session context (`WLANSessionContext` fields used). -/
structure WLANContext where
  mac_addr : String
  mac_addr_binary : String
deriving DecidableEq, Repr

/-- Rat-specific part of the session config (`RatSpecificContext`). -/
inductive RatSpecificContext
  | lte (ctx : LTEContext)
  | wlan (ctx : WLANContext)
  | unset
deriving DecidableEq, Repr

/-- Session configuration (`SessionConfig`); `apn_ambr` models the value
`get_apn_ambr()` returns. -/
structure SessionConfig where
  common_context : CommonContext
  rat_specific_context : RatSpecificContext
  apn_ambr : Nat
deriving DecidableEq, Repr

/-- 3GPP context attached to a session (`TgppContext` fields). -/
structure TgppContext where
  gx_dest_host : String
  gy_dest_host : String
deriving DecidableEq, Repr

/-- Policy type of an installed rule (`PolicyType`). -/
inductive PolicyType
  | STATIC
  | DYNAMIC
deriving DecidableEq, Repr

/-- Key of the bearer map (`PolicyID`). -/
structure PolicyID where
  policy_type : PolicyType
  rule_id : String
deriving DecidableEq, Repr

/-- Credit usage reported to the cloud (`CreditUsage` proto fields set by
the source). -/
structure CreditUsage where
  bytes_tx : Nat
  bytes_rx : Nat
  update_type : CreditUsageUpdateType
  charging_key : Nat
  service_identifier : Nat
deriving DecidableEq, Repr

/-- Stamp a credit key into a usage record
(`CreditKey::set_credit_usage`). -/
def CreditKey.set_credit_usage (k : CreditKey) (u : CreditUsage) : CreditUsage :=
  { u with charging_key := k.rating_group,
           service_identifier := k.service_identifier }

/-- One per-key credit usage update of an `UpdateSessionRequest`
(`CreditUsageUpdate` proto fields set by the source; rat-specific string
fields default to the empty string as in proto3). -/
structure CreditUsageUpdate where
  session_id : String
  request_number : Nat
  sid : String
  msisdn : String
  ue_ipv4 : String
  apn : String
  rat_type : RatType
  tgpp_ctx : TgppContext
  spgw_ipv4 : String
  imei : String
  plmn_id : String
  imsi_plmn_id : String
  user_location : String
  hardware_addr : String
  usage : CreditUsage
deriving DecidableEq, Repr

/-- Monitor usage carried in an update (`UsageMonitorUpdate` proto). -/
structure UsageMonitorUpdate where
  bytes_tx : Nat
  bytes_rx : Nat
  level : MonitoringLevel
  monitoring_key : String
deriving DecidableEq, Repr

/-- One usage-monitor update of an `UpdateSessionRequest`
(`UsageMonitoringUpdateRequest` proto fields set by the source). -/
structure UsageMonitoringUpdateRequest where
  session_id : String
  request_number : Nat
  sid : String
  ue_ipv4 : String
  rat_type : RatType
  tgpp_ctx : TgppContext
  hardware_addr : String
  update : Option UsageMonitorUpdate
  event_trigger : Option EventTrigger
deriving DecidableEq, Repr

/-- The batched update request sent to the cloud (`UpdateSessionRequest`,
the two repeated fields the source appends to). -/
structure UpdateSessionRequest where
  updates : List CreditUsageUpdate
  usage_monitors : List UsageMonitoringUpdateRequest
deriving DecidableEq, Repr

/-- An update request with no entries. -/
def UpdateSessionRequest.empty : UpdateSessionRequest := ⟨[], []⟩

/-- Terminate request (`SessionTerminateRequest` proto fields set by
`make_termination_request`). -/
structure SessionTerminateRequest where
  sid : String
  session_id : String
  request_number : Nat
  ue_ipv4 : String
  msisdn : String
  apn : String
  rat_type : RatType
  tgpp_ctx : TgppContext
  spgw_ipv4 : String
  imei : String
  plmn_id : String
  imsi_plmn_id : String
  user_location : String
  hardware_addr : String
  monitor_usages : List UsageMonitorUpdate
  credit_usages : List CreditUsage
deriving DecidableEq, Repr

/-- Service action handed to the enforcer for immediate data-plane
enforcement (`ServiceAction` fields set by `get_charging_updates`). -/
structure ServiceAction where
  action_type : ServiceActionType
  redirect_server : RedirectServer
  restrict_rule_ids : List String
  ambr : Option Nat
  credit_key : CreditKey
  imsi : String
  ip_addr : String
  session_id : String
  rule_ids : List String
  rule_definitions : List PolicyRule
deriving DecidableEq, Repr

/-- A freshly constructed `ServiceAction` for the given action type. -/
def ServiceAction.init (t : ServiceActionType) : ServiceAction :=
  ⟨t, ⟨""⟩, [], none, ⟨0, 0⟩, "", "", "", [], []⟩

/-- Charging credit of a `CreditUpdateResponse` (`ChargingCredit` proto
fields used by the source). -/
structure ChargingCredit where
  granted_units : GrantedUnits
  is_final : Bool
  final_action : FinalAction
  redirect_server : RedirectServer
  restrict_rules : List String
  validity_time : Nat
deriving DecidableEq, Repr

/-- Per-key response of the charging cloud (`CreditUpdateResponse` proto
fields used by the source). -/
structure CreditUpdateResponse where
  success : Bool
  sid : String
  charging_key : Nat
  service_identifier : Nat
  credit : ChargingCredit
  result_code : Nat
  limit_type : CreditLimitType
deriving DecidableEq, Repr

/-- Charging key of a response (`CreditKey(const CreditUpdateResponse&)`).
Modelled from the spec: the key is the (rating group, service identifier)
pair of the response. -/
def CreditUpdateResponse.key (u : CreditUpdateResponse) : CreditKey :=
  ⟨u.charging_key, u.service_identifier⟩

/-- Monitoring credit action (`UsageMonitoringCredit::Action`). -/
inductive UsageMonitoringAction
  | CONTINUE_MONITORING
  | DISABLE
deriving DecidableEq, Repr

/-- Monitoring credit of a monitoring response (`UsageMonitoringCredit`
proto fields used by the source). -/
structure UsageMonitoringCredit where
  action : UsageMonitoringAction
  monitoring_key : String
  level : MonitoringLevel
  granted_units : GrantedUnits
deriving DecidableEq, Repr

/-- Per-key monitoring response of the cloud
(`UsageMonitoringUpdateResponse` proto fields used by the source). -/
structure UsageMonitoringUpdateResponse where
  success : Bool
  sid : String
  session_id : String
  credit : Option UsageMonitoringCredit
  result_code : Nat
deriving DecidableEq, Repr

/-- Bearer binding request from the SGW (`PolicyBearerBindingRequest`
fields used by the source). -/
structure PolicyBearerBindingRequest where
  policy_rule_id : String
  bearer_id : Nat
deriving DecidableEq, Repr

/-- Per-invocation journal of intended session mutations
(`SessionStateUpdateCriteria`, fields used by SessionState.cpp).  The
`std::set` fields are modelled as duplicate-free lists in insertion
order. -/
structure SessionStateUpdateCriteria where
  is_fsm_updated : Bool
  updated_fsm_state : SessionFsmState
  is_config_updated : Bool
  updated_config : Option SessionConfig
  is_bearer_mapping_updated : Bool
  bearer_id_by_policy : List (PolicyID × Nat)
  is_pending_event_triggers_updated : Bool
  pending_event_triggers : List (EventTrigger × EventTriggerState)
  revalidation_time : Nat
  static_rules_to_install : List String
  static_rules_to_uninstall : List String
  new_scheduled_static_rules : List String
  dynamic_rules_to_install : List PolicyRule
  dynamic_rules_to_uninstall : List String
  new_scheduled_dynamic_rules : List PolicyRule
  gy_dynamic_rules_to_install : List PolicyRule
  gy_dynamic_rules_to_uninstall : List String
  restrict_rules_to_install : List String
  restrict_rules_to_uninstall : List String
  new_rule_lifetimes : List (String × RuleLifetime)
  charging_credit_map : List (CreditKey × SessionCreditUpdateCriteria)
  charging_credit_to_install : List (CreditKey × ChargingGrant)
  monitor_credit_map : List (String × SessionCreditUpdateCriteria)
  monitor_credit_to_install : List (String × Monitor)
  is_session_level_key_updated : Bool
  updated_session_level_key : String
  updated_pdp_end_time : Nat
  request_number_increment : Nat
deriving DecidableEq, Repr

/-- An empty journal (default-constructed update criteria). -/
def emptyUC : SessionStateUpdateCriteria :=
  { is_fsm_updated := false
    updated_fsm_state := SessionFsmState.SESSION_ACTIVE
    is_config_updated := false
    updated_config := none
    is_bearer_mapping_updated := false
    bearer_id_by_policy := []
    is_pending_event_triggers_updated := false
    pending_event_triggers := []
    revalidation_time := 0
    static_rules_to_install := []
    static_rules_to_uninstall := []
    new_scheduled_static_rules := []
    dynamic_rules_to_install := []
    dynamic_rules_to_uninstall := []
    new_scheduled_dynamic_rules := []
    gy_dynamic_rules_to_install := []
    gy_dynamic_rules_to_uninstall := []
    restrict_rules_to_install := []
    restrict_rules_to_uninstall := []
    new_rule_lifetimes := []
    charging_credit_map := []
    charging_credit_to_install := []
    monitor_credit_map := []
    monitor_credit_to_install := []
    is_session_level_key_updated := false
    updated_session_level_key := ""
    updated_pdp_end_time := 0
    request_number_increment := 0 }

/-- The per-subscriber session object (`SessionState` member fields). -/
structure Session where
  imsi : String
  session_id : String
  request_number : Nat
  curr_state : SessionFsmState
  config : SessionConfig
  pdp_start_time : Nat
  pdp_end_time : Nat
  subscriber_quota_state : SubscriberQuotaState
  tgpp_context : TgppContext
  pending_event_triggers : List (EventTrigger × EventTriggerState)
  revalidation_time : Nat
  session_level_key : String
  monitor_map : List (String × Monitor)
  credit_map : List (CreditKey × ChargingGrant)
  active_static_rules : List String
  scheduled_static_rules : List String
  dynamic_rules : List PolicyRule
  scheduled_dynamic_rules : List PolicyRule
  gy_dynamic_rules : List PolicyRule
  active_restrict_rules : List String
  rule_lifetimes : List (String × RuleLifetime)
  bearer_id_by_policy : List (PolicyID × Nat)
  static_rule_store : List PolicyRule
deriving DecidableEq, Repr

/-- Source: `SessionState::is_static_rule_installed`. -/
def Session.is_static_rule_installed (s : Session) (rid : String) : Bool :=
  decide (rid ∈ s.active_static_rules)

/-- Source: `SessionState::is_restrict_rule_installed`. -/
def Session.is_restrict_rule_installed (s : Session) (rid : String) : Bool :=
  decide (rid ∈ s.active_restrict_rules)

/-- Source: `SessionState::is_static_rule_scheduled`. -/
def Session.is_static_rule_scheduled (s : Session) (rid : String) : Bool :=
  decide (rid ∈ s.scheduled_static_rules)

/-- Source: `SessionState::is_dynamic_rule_installed`. -/
def Session.is_dynamic_rule_installed (s : Session) (rid : String) : Bool :=
  (getRule s.dynamic_rules rid).isSome

/-- Source: `SessionState::is_dynamic_rule_scheduled`. -/
def Session.is_dynamic_rule_scheduled (s : Session) (rid : String) : Bool :=
  (getRule s.scheduled_dynamic_rules rid).isSome

/-- Source: `SessionState::is_gy_dynamic_rule_installed`. -/
def Session.is_gy_dynamic_rule_installed (s : Session) (rid : String) : Bool :=
  (getRule s.gy_dynamic_rules rid).isSome

/-- Lifetime of a rule as read by the source through
`rule_lifetimes_[rule_id]` (default lifetime when absent). -/
def Session.lifetimeOf (s : Session) (rid : String) : RuleLifetime :=
  (alookup rid s.rule_lifetimes).getD ⟨0, 0⟩

/-- Source: `SessionState::should_rule_be_active` — the rule counts as
active at `t` unless a positive deactivation time lies strictly before
`t`, and only once the activation time lies strictly before `t`. -/
def Session.should_rule_be_active (s : Session) (rid : String) (t : Nat) : Bool :=
  let lifetime := s.lifetimeOf rid
  let deactivated := lifetime.deactivation_time > 0 && lifetime.deactivation_time < t
  lifetime.activation_time < t && !deactivated

/-- Source: `SessionState::should_rule_be_deactivated`. -/
def Session.should_rule_be_deactivated (s : Session) (rid : String) (t : Nat) : Bool :=
  let lifetime := s.lifetimeOf rid
  lifetime.deactivation_time > 0 && lifetime.deactivation_time < t

/-- Source: `SessionState::set_fsm_state` — unconditionally adopts the new
state, journalling only when it differs. -/
def Session.set_fsm_state (s : Session) (st : SessionFsmState)
    (uc : SessionStateUpdateCriteria) : Session × SessionStateUpdateCriteria :=
  if s.curr_state ≠ st then
    ({ s with curr_state := st },
     { uc with is_fsm_updated := true, updated_fsm_state := st })
  else (s, uc)

/-- Source: `SessionState::mark_as_awaiting_termination`. -/
def Session.mark_as_awaiting_termination (s : Session)
    (uc : SessionStateUpdateCriteria) : Session × SessionStateUpdateCriteria :=
  s.set_fsm_state SessionFsmState.SESSION_TERMINATION_SCHEDULED uc

/-- Source: `SessionState::insert_dynamic_rule`. -/
def Session.insert_dynamic_rule (s : Session) (rule : PolicyRule)
    (lifetime : RuleLifetime) (uc : SessionStateUpdateCriteria) :
    Session × SessionStateUpdateCriteria :=
  if s.is_dynamic_rule_installed rule.id then (s, uc)
  else
    ({ s with rule_lifetimes := aset rule.id lifetime s.rule_lifetimes,
              dynamic_rules := insertRule s.dynamic_rules rule },
     { uc with dynamic_rules_to_install := uc.dynamic_rules_to_install ++ [rule],
               new_rule_lifetimes := aset rule.id lifetime uc.new_rule_lifetimes })

/-- Source: `SessionState::insert_gy_dynamic_rule`. -/
def Session.insert_gy_dynamic_rule (s : Session) (rule : PolicyRule)
    (lifetime : RuleLifetime) (uc : SessionStateUpdateCriteria) :
    Session × SessionStateUpdateCriteria :=
  if s.is_gy_dynamic_rule_installed rule.id then (s, uc)
  else
    ({ s with rule_lifetimes := aset rule.id lifetime s.rule_lifetimes,
              gy_dynamic_rules := insertRule s.gy_dynamic_rules rule },
     { uc with gy_dynamic_rules_to_install := uc.gy_dynamic_rules_to_install ++ [rule],
               new_rule_lifetimes := aset rule.id lifetime uc.new_rule_lifetimes })

/-- Source: `SessionState::activate_static_rule` — appends unconditionally
and journals the install and the lifetime. -/
def Session.activate_static_rule (s : Session) (rid : String)
    (lifetime : RuleLifetime) (uc : SessionStateUpdateCriteria) :
    Session × SessionStateUpdateCriteria :=
  ({ s with rule_lifetimes := aset rid lifetime s.rule_lifetimes,
            active_static_rules := s.active_static_rules ++ [rid] },
   { uc with static_rules_to_install := sinsert rid uc.static_rules_to_install,
             new_rule_lifetimes := aset rid lifetime uc.new_rule_lifetimes })

/-- Source: `SessionState::activate_restrict_rule`. -/
def Session.activate_restrict_rule (s : Session) (rid : String)
    (lifetime : RuleLifetime) (uc : SessionStateUpdateCriteria) :
    Session × SessionStateUpdateCriteria :=
  ({ s with rule_lifetimes := aset rid lifetime s.rule_lifetimes,
            active_restrict_rules := s.active_restrict_rules ++ [rid] },
   { uc with restrict_rules_to_install := sinsert rid uc.restrict_rules_to_install,
             new_rule_lifetimes := aset rid lifetime uc.new_rule_lifetimes })

/-- Source: `SessionState::remove_dynamic_rule`. -/
def Session.remove_dynamic_rule (s : Session) (rid : String)
    (uc : SessionStateUpdateCriteria) :
    Bool × Session × SessionStateUpdateCriteria :=
  let (removed, _, rules) := removeRule s.dynamic_rules rid
  if removed then
    (true, { s with dynamic_rules := rules },
     { uc with dynamic_rules_to_uninstall :=
         sinsert rid uc.dynamic_rules_to_uninstall })
  else (false, s, uc)

/-- Source: `SessionState::remove_scheduled_dynamic_rule` — journals the
removal into `dynamic_rules_to_uninstall`. -/
def Session.remove_scheduled_dynamic_rule (s : Session) (rid : String)
    (uc : SessionStateUpdateCriteria) :
    Bool × Session × SessionStateUpdateCriteria :=
  let (removed, _, rules) := removeRule s.scheduled_dynamic_rules rid
  if removed then
    (true, { s with scheduled_dynamic_rules := rules },
     { uc with dynamic_rules_to_uninstall :=
         sinsert rid uc.dynamic_rules_to_uninstall })
  else (false, s, uc)

/-- Source: `SessionState::remove_gy_dynamic_rule`. -/
def Session.remove_gy_dynamic_rule (s : Session) (rid : String)
    (uc : SessionStateUpdateCriteria) :
    Bool × Session × SessionStateUpdateCriteria :=
  let (removed, _, rules) := removeRule s.gy_dynamic_rules rid
  if removed then
    (true, { s with gy_dynamic_rules := rules },
     { uc with gy_dynamic_rules_to_uninstall :=
         sinsert rid uc.gy_dynamic_rules_to_uninstall })
  else (false, s, uc)

/-- Source: `SessionState::deactivate_static_rule`. -/
def Session.deactivate_static_rule (s : Session) (rid : String)
    (uc : SessionStateUpdateCriteria) :
    Bool × Session × SessionStateUpdateCriteria :=
  if rid ∈ s.active_static_rules then
    (true, { s with active_static_rules := serase rid s.active_static_rules },
     { uc with static_rules_to_uninstall :=
         sinsert rid uc.static_rules_to_uninstall })
  else (false, s, uc)

/-- Source: `SessionState::deactivate_scheduled_static_rule` — note that
the journal is NOT written (the update criteria argument is unused in the
source). -/
def Session.deactivate_scheduled_static_rule (s : Session) (rid : String)
    (uc : SessionStateUpdateCriteria) :
    Bool × Session × SessionStateUpdateCriteria :=
  if rid ∈ s.scheduled_static_rules then
    (true, { s with scheduled_static_rules := serase rid s.scheduled_static_rules },
     uc)
  else (false, s, uc)

/-- Source: `SessionState::deactivate_restrict_rule`. -/
def Session.deactivate_restrict_rule (s : Session) (rid : String)
    (uc : SessionStateUpdateCriteria) :
    Bool × Session × SessionStateUpdateCriteria :=
  if rid ∈ s.active_restrict_rules then
    (true, { s with active_restrict_rules := serase rid s.active_restrict_rules },
     { uc with restrict_rules_to_uninstall :=
         sinsert rid uc.restrict_rules_to_uninstall })
  else (false, s, uc)

/-- Source: `SessionState::schedule_static_rule`. -/
def Session.schedule_static_rule (s : Session) (rid : String)
    (lifetime : RuleLifetime) (uc : SessionStateUpdateCriteria) :
    Session × SessionStateUpdateCriteria :=
  ({ s with rule_lifetimes := aset rid lifetime s.rule_lifetimes,
            scheduled_static_rules := sinsert rid s.scheduled_static_rules },
   { uc with new_rule_lifetimes := aset rid lifetime uc.new_rule_lifetimes,
             new_scheduled_static_rules := sinsert rid uc.new_scheduled_static_rules })

/-- Source: `SessionState::schedule_dynamic_rule`. -/
def Session.schedule_dynamic_rule (s : Session) (rule : PolicyRule)
    (lifetime : RuleLifetime) (uc : SessionStateUpdateCriteria) :
    Session × SessionStateUpdateCriteria :=
  ({ s with rule_lifetimes := aset rule.id lifetime s.rule_lifetimes,
            scheduled_dynamic_rules := insertRule s.scheduled_dynamic_rules rule },
   { uc with new_rule_lifetimes := aset rule.id lifetime uc.new_rule_lifetimes,
             new_scheduled_dynamic_rules := uc.new_scheduled_dynamic_rules ++ [rule] })

/-- Source: `SessionState::install_scheduled_static_rule` — when the rule
is not scheduled the source only logs an error and still proceeds to
append the rule to the active list. -/
def Session.install_scheduled_static_rule (s : Session) (rid : String)
    (uc : SessionStateUpdateCriteria) : Session × SessionStateUpdateCriteria :=
  ({ s with scheduled_static_rules := serase rid s.scheduled_static_rules,
            active_static_rules := s.active_static_rules ++ [rid] },
   { uc with static_rules_to_install := sinsert rid uc.static_rules_to_install })

/-- Source: `SessionState::install_scheduled_dynamic_rule`. -/
def Session.install_scheduled_dynamic_rule (s : Session) (rid : String)
    (uc : SessionStateUpdateCriteria) : Session × SessionStateUpdateCriteria :=
  let (removed, rule?, rules) := removeRule s.scheduled_dynamic_rules rid
  if removed then
    match rule? with
    | some rule =>
        ({ s with scheduled_dynamic_rules := rules,
                  dynamic_rules := insertRule s.dynamic_rules rule },
         { uc with dynamic_rules_to_install := uc.dynamic_rules_to_install ++ [rule] })
    | none => (s, uc)
  else (s, uc)

/-- Source: `SessionState::get_credit_uc` — fetch (or lazily snapshot) the
per-key credit journal entry.  The caller stores the mutated entry back
with `Session.set_credit_uc`. -/
def Session.get_credit_uc (s : Session) (k : CreditKey)
    (uc : SessionStateUpdateCriteria) :
    SessionCreditUpdateCriteria × SessionStateUpdateCriteria :=
  match alookup k uc.charging_credit_map with
  | some cuc => (cuc, uc)
  | none =>
      let cuc := ((alookup k s.credit_map).getD ChargingGrant.init).get_update_criteria
      (cuc, { uc with charging_credit_map := aset k cuc uc.charging_credit_map })

/-- Write back a mutated per-key credit journal entry (the C++ mutates it
in place through the pointer `get_credit_uc` returns). -/
def SessionStateUpdateCriteria.set_credit_uc (uc : SessionStateUpdateCriteria)
    (k : CreditKey) (cuc : SessionCreditUpdateCriteria) : SessionStateUpdateCriteria :=
  { uc with charging_credit_map := aset k cuc uc.charging_credit_map }

/-- Source: `SessionState::get_monitor_uc`. -/
def Session.get_monitor_uc (s : Session) (k : String)
    (uc : SessionStateUpdateCriteria) :
    SessionCreditUpdateCriteria × SessionStateUpdateCriteria :=
  match alookup k uc.monitor_credit_map with
  | some cuc => (cuc, uc)
  | none =>
      let cuc := ((alookup k s.monitor_map).getD
        ⟨SessionCredit.init, MonitoringLevel.PCC_RULE_LEVEL⟩).credit.get_update_criteria
      (cuc, { uc with monitor_credit_map := aset k cuc uc.monitor_credit_map })

/-- Write back a mutated per-monitor journal entry. -/
def SessionStateUpdateCriteria.set_monitor_uc (uc : SessionStateUpdateCriteria)
    (k : String) (cuc : SessionCreditUpdateCriteria) : SessionStateUpdateCriteria :=
  { uc with monitor_credit_map := aset k cuc uc.monitor_credit_map }

/-- Source: `SessionState::get_charging_credit` — bucket read of a grant,
0 when the key is not tracked; the session is left untouched. -/
def Session.get_charging_credit (s : Session) (k : CreditKey) (b : Bucket) :
    Nat × Session :=
  match alookup k s.credit_map with
  | none => (0, s)
  | some g => (g.credit.get_credit b, s)

/-- Source: `SessionState::get_monitor` — bucket read of a monitor, 0 when
the key is not tracked; the session is left untouched. -/
def Session.get_monitor (s : Session) (k : String) (b : Bucket) :
    Nat × Session :=
  match alookup k s.monitor_map with
  | none => (0, s)
  | some m => (m.credit.get_credit b, s)

/-- Source: `SessionState::add_to_monitor` — add usage to (or delete) the
monitor for `key`. -/
def Session.add_to_monitor (s : Session) (key : String) (tx rx : Nat)
    (uc : SessionStateUpdateCriteria) :
    Bool × Session × SessionStateUpdateCriteria :=
  match alookup key s.monitor_map with
  | none => (false, s, uc)
  | some m =>
      let (cuc, uc1) := s.get_monitor_uc key uc
      if m.should_delete_monitor then
        let uc2 :=
          if m.level = MonitoringLevel.SESSION_LEVEL then
            { uc1 with is_session_level_key_updated := true,
                       updated_session_level_key := "" }
          else uc1
        let uc3 := uc2.set_monitor_uc key { cuc with deleted := true }
        (true, { s with monitor_map := aerase key s.monitor_map }, uc3)
      else
        let (credit', cuc') := m.credit.add_used_credit tx rx cuc
        (true,
         { s with monitor_map := aset key { m with credit := credit' } s.monitor_map },
         uc1.set_monitor_uc key cuc')

/-- Source: `SessionState::add_rule_usage` — resolve the rule's charging
key, add used credit (flagging NEEDS_DEACTIVATION when exhausted), then
add to the rule's monitor and, when distinct, to the session-level
monitor. -/
def Session.add_rule_usage (s : Session) (rid : String) (tx rx : Nat)
    (uc : SessionStateUpdateCriteria) : Session × SessionStateUpdateCriteria :=
  let step1 :=
    match (get_charging_key_for_rule_id s.dynamic_rules rid).orElse
        (fun _ => get_charging_key_for_rule_id s.static_rule_store rid) with
    | none => (s, uc)
    | some ck =>
        match alookup ck s.credit_map with
        | none => (s, uc)
        | some g =>
            let (cuc, uc1) := s.get_credit_uc ck uc
            let (credit', cuc1) := g.credit.add_used_credit tx rx cuc
            let g1 := { g with credit := credit' }
            let (g2, cuc2) :=
              if g1.should_deactivate_service then
                g1.set_service_state ServiceState.SERVICE_NEEDS_DEACTIVATION cuc1
              else (g1, cuc1)
            ({ s with credit_map := aset ck g2 s.credit_map },
             uc1.set_credit_uc ck cuc2)
  let s1 := step1.1
  let uc1 := step1.2
  let mkey :=
    ((get_monitoring_key_for_rule_id s1.dynamic_rules rid).orElse
      (fun _ => get_monitoring_key_for_rule_id s1.static_rule_store rid)).getD ""
  let step2 :=
    if mkey ≠ "" then
      let r := s1.add_to_monitor mkey tx rx uc1
      (r.2.1, r.2.2)
    else (s1, uc1)
  let s2 := step2.1
  let uc2 := step2.2
  if s2.session_level_key ≠ "" ∧ mkey ≠ s2.session_level_key then
    let r := s2.add_to_monitor s2.session_level_key tx rx uc2
    (r.2.1, r.2.2)
  else (s2, uc2)

/-- Source: `get_final_action_info` (static helper in SessionState.cpp). -/
def get_final_action_info (credit : ChargingCredit) : FinalActionInfo :=
  if credit.is_final then
    if credit.final_action = FinalAction.REDIRECT then
      { FinalActionInfo.empty with final_action := credit.final_action,
                                   redirect_server := credit.redirect_server }
    else if credit.final_action = FinalAction.RESTRICT_ACCESS then
      { FinalActionInfo.empty with final_action := credit.final_action,
                                   restrict_rules := credit.restrict_rules }
    else { FinalActionInfo.empty with final_action := credit.final_action }
  else FinalActionInfo.empty

/-- Modelled from the spec: `ChargingGrant::receive_charging_grant` — pass
the granted units to the credit, stamp final-unit metadata and the expiry
time (spec section 4.3). -/
def ChargingGrant.receive_charging_grant (g : ChargingGrant) (cc : ChargingCredit)
    (cuc : SessionCreditUpdateCriteria) :
    ChargingGrant × SessionCreditUpdateCriteria :=
  let (credit', cuc1) := g.credit.receive_credit cc.granted_units cuc
  let fai := get_final_action_info cc
  ({ g with credit := credit', is_final_grant := cc.is_final,
            final_action_info := fai, expiry_time := cc.validity_time },
   { cuc1 with is_final := cc.is_final, final_action_info := fai,
               expiry_time := cc.validity_time })

/-- Source: `SessionState::contains_credit`. -/
def contains_credit (gsu : GrantedUnits) : Bool :=
  (gsu.total.is_valid && gsu.total.volume > 0) ||
  (gsu.tx.is_valid && gsu.tx.volume > 0) ||
  (gsu.rx.is_valid && gsu.rx.volume > 0)

/-- Source: `SessionState::is_infinite_credit`. -/
def is_infinite_credit (u : CreditUpdateResponse) : Bool :=
  u.limit_type = CreditLimitType.INFINITE_UNMETERED ||
  u.limit_type = CreditLimitType.INFINITE_METERED

/-- Source: `SessionState::init_charging_credit` — only a successful
response installs a new grant; the journal records the install. -/
def Session.init_charging_credit (s : Session) (u : CreditUpdateResponse)
    (uc : SessionStateUpdateCriteria) :
    Bool × Session × SessionStateUpdateCriteria :=
  if !u.success then (false, s, uc)
  else
    let g0 := ChargingGrant.init
    let (g1, _) := g0.receive_charging_grant u.credit g0.get_update_criteria
    (contains_credit u.credit.granted_units || is_infinite_credit u,
     { s with credit_map := aset u.key g1 s.credit_map },
     { uc with
         charging_credit_to_install := aset u.key g1 uc.charging_credit_to_install })

/-- Source: `SessionState::receive_charging_credit` — update (or
initialise) the grant for the response's key. -/
def Session.receive_charging_credit (s : Session) (u : CreditUpdateResponse)
    (uc : SessionStateUpdateCriteria) :
    Bool × Session × SessionStateUpdateCriteria :=
  match alookup u.key s.credit_map with
  | none => s.init_charging_credit u uc
  | some g =>
      let (cuc, uc1) := s.get_credit_uc u.key uc
      if !u.success then
        let (credit', cuc1) := g.credit.mark_failure u.result_code cuc
        let g1 := { g with credit := credit' }
        let (g2, cuc2) :=
          if g1.should_deactivate_service then
            g1.set_service_state ServiceState.SERVICE_NEEDS_DEACTIVATION cuc1
          else (g1, cuc1)
        (false, { s with credit_map := aset u.key g2 s.credit_map },
         uc1.set_credit_uc u.key cuc2)
      else
        let (g1, cuc1) := g.receive_charging_grant u.credit cuc
        let (g2, cuc2) :=
          if g1.reauth_state = ReAuthState.REAUTH_PROCESSING then
            g1.set_reauth_state ReAuthState.REAUTH_NOT_NEEDED cuc1
          else (g1, cuc1)
        let (g3, cuc3) :=
          if !g2.credit.is_quota_exhausted 100 ∧
              g2.service_state ≠ ServiceState.SERVICE_ENABLED then
            g2.set_service_state ServiceState.SERVICE_NEEDS_ACTIVATION cuc2
          else (g2, cuc2)
        (contains_credit u.credit.granted_units || is_infinite_credit u,
         { s with credit_map := aset u.key g3 s.credit_map },
         uc1.set_credit_uc u.key cuc3)

/-- Reauth outcome (`ReAuthResult`). -/
inductive ReAuthResult
  | UPDATE_INITIATED
  | UPDATE_NOT_NEEDED
deriving DecidableEq, Repr

/-- Source: `SessionState::reauth_key`. -/
def Session.reauth_key (s : Session) (k : CreditKey)
    (uc : SessionStateUpdateCriteria) :
    ReAuthResult × Session × SessionStateUpdateCriteria :=
  match alookup k s.credit_map with
  | some g =>
      if g.credit.is_reporting then (ReAuthResult.UPDATE_NOT_NEEDED, s, uc)
      else
        let cuc := g.get_update_criteria
        let (g1, cuc1) := g.set_reauth_state ReAuthState.REAUTH_REQUIRED cuc
        (ReAuthResult.UPDATE_INITIATED,
         { s with credit_map := aset k g1 s.credit_map },
         { uc with charging_credit_map := aset k cuc1 uc.charging_credit_map })
  | none =>
      let g : ChargingGrant :=
        { ChargingGrant.init with reauth_state := ReAuthState.REAUTH_REQUIRED,
                                  service_state := ServiceState.SERVICE_DISABLED }
      (ReAuthResult.UPDATE_INITIATED,
       { s with credit_map := aset k g s.credit_map },
       { uc with charging_credit_to_install := aset k g uc.charging_credit_to_install })

/-- Source: `SessionState::reauth_all` — one traversal marking REQUIRED on
all grants that are not currently reporting. -/
def Session.reauth_all (s : Session) (uc : SessionStateUpdateCriteria) :
    ReAuthResult × Session × SessionStateUpdateCriteria :=
  let step := fun (acc : List (CreditKey × ChargingGrant) ×
      SessionStateUpdateCriteria × ReAuthResult) (p : CreditKey × ChargingGrant) =>
    let (done, uc0, res) := acc
    let (k, g) := p
    if !g.credit.is_reporting then
      let (g1, cuc1) := g.set_reauth_state ReAuthState.REAUTH_REQUIRED
        g.get_update_criteria
      (done ++ [(k, g1)],
       { uc0 with charging_credit_map := aset k cuc1 uc0.charging_credit_map },
       ReAuthResult.UPDATE_INITIATED)
    else (done ++ [(k, g)], uc0, res)
  let (cm, uc1, res) :=
    s.credit_map.foldl step ([], uc, ReAuthResult.UPDATE_NOT_NEEDED)
  (res, { s with credit_map := cm }, uc1)

/-- Source: `SessionState::get_policy_type`. -/
def Session.get_policy_type (s : Session) (rid : String) : Option PolicyType :=
  if s.is_static_rule_installed rid then some PolicyType.STATIC
  else if s.is_dynamic_rule_installed rid then some PolicyType.DYNAMIC
  else none

/-- Source: `SessionState::bind_policy_to_bearer`. -/
def Session.bind_policy_to_bearer (s : Session) (req : PolicyBearerBindingRequest)
    (uc : SessionStateUpdateCriteria) : Session × SessionStateUpdateCriteria :=
  match s.get_policy_type req.policy_rule_id with
  | none => (s, uc)
  | some pt =>
      let m := aset ⟨pt, req.policy_rule_id⟩ req.bearer_id s.bearer_id_by_policy
      ({ s with bearer_id_by_policy := m },
       { uc with is_bearer_mapping_updated := true, bearer_id_by_policy := m })

/-- Source: `SessionState::sync_rules_to_time` — deactivate expired rules
and promote scheduled rules whose activation time has passed. -/
def Session.sync_rules_to_time (s : Session) (t : Nat)
    (uc : SessionStateUpdateCriteria) : Session × SessionStateUpdateCriteria :=
  let p1 := s.active_static_rules.foldl
    (fun (acc : Session × SessionStateUpdateCriteria) rid =>
      if acc.1.should_rule_be_deactivated rid t then
        let r := acc.1.deactivate_static_rule rid acc.2
        (r.2.1, r.2.2)
      else acc) (s, uc)
  let p2 := p1.1.scheduled_static_rules.foldl
    (fun (acc : Session × SessionStateUpdateCriteria) rid =>
      if acc.1.should_rule_be_active rid t then
        acc.1.install_scheduled_static_rule rid acc.2
      else if acc.1.should_rule_be_deactivated rid t then
        ({ acc.1 with
             scheduled_static_rules := serase rid acc.1.scheduled_static_rules },
         { acc.2 with
             static_rules_to_uninstall := sinsert rid acc.2.static_rules_to_uninstall })
      else acc) p1
  let p3 := (p2.1.dynamic_rules.map PolicyRule.id).foldl
    (fun (acc : Session × SessionStateUpdateCriteria) rid =>
      if acc.1.should_rule_be_deactivated rid t then
        let r := acc.1.remove_dynamic_rule rid acc.2
        (r.2.1, r.2.2)
      else acc) p2
  (p3.1.scheduled_dynamic_rules.map PolicyRule.id).foldl
    (fun (acc : Session × SessionStateUpdateCriteria) rid =>
      if acc.1.should_rule_be_active rid t then
        acc.1.install_scheduled_dynamic_rule rid acc.2
      else if acc.1.should_rule_be_deactivated rid t then
        let r := acc.1.remove_scheduled_dynamic_rule rid acc.2
        (r.2.1, r.2.2)
      else acc) p3

/-- Source: `make_usage_monitor_update` (static helper). -/
def make_usage_monitor_update (usage : CreditUsagePair) (mkey : String)
    (level : MonitoringLevel) : UsageMonitorUpdate :=
  ⟨usage.bytes_tx, usage.bytes_rx, level, mkey⟩

/-- Modelled from the spec: `ChargingGrant::get_credit_usage` — move the
(terminal or periodic) usage into reporting and wrap it in a `CreditUsage`
with the given update type. -/
def ChargingGrant.get_credit_usage (g : ChargingGrant) (ut : CreditUsageUpdateType)
    (cuc : SessionCreditUpdateCriteria) (is_terminate : Bool) :
    CreditUsage × ChargingGrant × SessionCreditUpdateCriteria :=
  let (u, credit', cuc') :=
    if is_terminate then g.credit.get_all_unreported_usage_for_reporting cuc
    else g.credit.get_usage_for_reporting cuc
  (⟨u.bytes_tx, u.bytes_rx, ut, 0, 0⟩, { g with credit := credit' }, cuc')

/-- Source: `SessionState::make_credit_usage_update_req` — stamp the
session's identity and config into a per-key usage update. -/
def Session.make_credit_usage_update_req (s : Session) (usage : CreditUsage) :
    CreditUsageUpdate :=
  { session_id := s.session_id
    request_number := s.request_number
    sid := s.imsi
    msisdn := s.config.common_context.msisdn
    ue_ipv4 := s.config.common_context.ue_ipv4
    apn := s.config.common_context.apn
    rat_type := s.config.common_context.rat_type
    tgpp_ctx := s.tgpp_context
    spgw_ipv4 := match s.config.rat_specific_context with
      | RatSpecificContext.lte c => c.spgw_ipv4
      | _ => ""
    imei := match s.config.rat_specific_context with
      | RatSpecificContext.lte c => c.imei
      | _ => ""
    plmn_id := match s.config.rat_specific_context with
      | RatSpecificContext.lte c => c.plmn_id
      | _ => ""
    imsi_plmn_id := match s.config.rat_specific_context with
      | RatSpecificContext.lte c => c.imsi_plmn_id
      | _ => ""
    user_location := match s.config.rat_specific_context with
      | RatSpecificContext.lte c => c.user_location
      | _ => ""
    hardware_addr := match s.config.rat_specific_context with
      | RatSpecificContext.wlan c => c.mac_addr_binary
      | _ => ""
    usage := usage }

/-- Source: `SessionState::add_common_fields_to_usage_monitor_update`. -/
def Session.usage_monitor_common (s : Session) : UsageMonitoringUpdateRequest :=
  { session_id := s.session_id
    request_number := s.request_number
    sid := s.imsi
    ue_ipv4 := s.config.common_context.ue_ipv4
    rat_type := s.config.common_context.rat_type
    tgpp_ctx := s.tgpp_context
    hardware_addr := match s.config.rat_specific_context with
      | RatSpecificContext.wlan c => c.mac_addr_binary
      | _ => ""
    update := none
    event_trigger := none }

/-- The skip condition of the per-monitor loop in
`SessionState::get_monitor_updates`: not partially exhausted, or a
zero-valued current grant that is not yet totally exhausted. -/
def monitorUpdateSkipped (m : Monitor) : Bool :=
  !(m.credit.is_quota_exhausted USAGE_REPORTING_THRESHOLD) ||
  (!(m.credit.is_quota_exhausted 100) && m.credit.current_grant_contains_zero)

/-- One iteration of the per-monitor loop of
`SessionState::get_monitor_updates`. -/
def Session.monitor_step (s : Session) (mkey : String) (m : Monitor)
    (uc : SessionStateUpdateCriteria) :
    Session × SessionStateUpdateCriteria × Option UsageMonitoringUpdateRequest :=
  if monitorUpdateSkipped m then (s, uc, none)
  else
    let (cuc, uc1) := s.get_monitor_uc mkey uc
    let (usage, credit', cuc1) := m.credit.get_usage_for_reporting cuc
    let update := make_usage_monitor_update usage mkey m.level
    let new_req := { s.usage_monitor_common with
                       update := some update,
                       event_trigger := some EventTrigger.USAGE_REPORT }
    ({ s with monitor_map := aset mkey { m with credit := credit' } s.monitor_map,
              request_number := s.request_number + 1 },
     { uc1.set_monitor_uc mkey cuc1 with
         request_number_increment := uc1.request_number_increment + 1 },
     some new_req)

/-- The per-monitor loop of `SessionState::get_monitor_updates`, iterating
over the monitor map entries in order. -/
def Session.monitors_go (s : Session)
    (pending : List (String × Monitor)) (uc : SessionStateUpdateCriteria) :
    Session × SessionStateUpdateCriteria × List UsageMonitoringUpdateRequest :=
  match pending with
  | [] => (s, uc, [])
  | (mkey, m) :: rest =>
      let (s1, uc1, r?) := s.monitor_step mkey m uc
      let (s2, uc2, rs) := s1.monitors_go rest uc1
      (s2, uc2, r?.toList ++ rs)

/-- Source: `SessionState::get_monitor_updates`. -/
def Session.get_monitor_updates (s : Session) (req : UpdateSessionRequest)
    (uc : SessionStateUpdateCriteria) :
    UpdateSessionRequest × Session × SessionStateUpdateCriteria :=
  let (s', uc', rs) := s.monitors_go s.monitor_map uc
  ({ req with usage_monitors := req.usage_monitors ++ rs }, s', uc')

/-- Fall-through tail of the switch in `get_charging_updates`: the
TERMINATE_SERVICE case, which fills the action's identity and rule fields
and pushes it. -/
def Session.charging_terminate_part (s : Session) (k : CreditKey)
    (g : ChargingGrant) (cuc : SessionCreditUpdateCriteria)
    (uc : SessionStateUpdateCriteria) (action : ServiceAction) :
    Session × SessionStateUpdateCriteria × Option CreditUsageUpdate ×
      Option ServiceAction :=
  let action1 := { action with
    credit_key := k
    imsi := s.imsi
    ip_addr := s.config.common_context.ue_ipv4
    session_id := s.session_id
    rule_ids := action.rule_ids ++ get_rule_ids_for_charging_key s.static_rule_store k
    rule_definitions :=
      action.rule_definitions ++ get_rule_definitions_for_charging_key s.dynamic_rules k }
  ({ s with credit_map := aset k g s.credit_map },
   uc.set_credit_uc k cuc, none, some action1)

/-- Fall-through tail from the ACTIVATE_SERVICE case: set the AMBR then
continue into the TERMINATE_SERVICE case. -/
def Session.charging_activate_part (s : Session) (k : CreditKey)
    (g : ChargingGrant) (cuc : SessionCreditUpdateCriteria)
    (uc : SessionStateUpdateCriteria) (action : ServiceAction) :
    Session × SessionStateUpdateCriteria × Option CreditUsageUpdate ×
      Option ServiceAction :=
  s.charging_terminate_part k g cuc uc { action with ambr := some s.config.apn_ambr }

/-- Fall-through tail from the RESTRICT_ACCESS case: unless the service is
already restricted, mark SERVICE_RESTRICTED, append the restrict rules
and continue into the ACTIVATE_SERVICE case. -/
def Session.charging_restrict_part (s : Session) (k : CreditKey)
    (g : ChargingGrant) (cuc : SessionCreditUpdateCriteria)
    (uc : SessionStateUpdateCriteria) (action : ServiceAction) :
    Session × SessionStateUpdateCriteria × Option CreditUsageUpdate ×
      Option ServiceAction :=
  if g.service_state = ServiceState.SERVICE_RESTRICTED then
    ({ s with credit_map := aset k g s.credit_map },
     uc.set_credit_uc k cuc, none, none)
  else
    let (g1, cuc1) := g.set_service_state ServiceState.SERVICE_RESTRICTED cuc
    let action1 := { action with
      restrict_rule_ids := action.restrict_rule_ids ++ g1.final_action_info.restrict_rules }
    s.charging_activate_part k g1 cuc1 uc action1

/-- One iteration of the per-grant switch in
`SessionState::get_charging_updates`.  `getAction` stands for
`ChargingGrant::get_action`, whose source is not part of the excerpt; the
claims condition on its result. -/
def Session.charging_step (getAction : ChargingGrant → ServiceActionType)
    (s : Session) (k : CreditKey) (g : ChargingGrant)
    (uc : SessionStateUpdateCriteria) :
    Session × SessionStateUpdateCriteria × Option CreditUsageUpdate ×
      Option ServiceAction :=
  let (cuc, uc1) := s.get_credit_uc k uc
  let action_type := getAction g
  let action := ServiceAction.init action_type
  match action_type with
  | ServiceActionType.CONTINUE_SERVICE =>
      match g.get_update_type with
      | none => (s, uc1, none, none)
      | some ut =>
          let (g1, cuc1) :=
            if ut = CreditUsageUpdateType.REAUTH_REQUIRED then
              g.set_reauth_state ReAuthState.REAUTH_PROCESSING cuc
            else (g, cuc)
          let (usage, g2, cuc2) := g1.get_credit_usage ut cuc1 false
          let usage1 := k.set_credit_usage usage
          let credit_req := s.make_credit_usage_update_req usage1
          ({ s with credit_map := aset k g2 s.credit_map,
                    request_number := s.request_number + 1 },
           { uc1.set_credit_uc k cuc2 with
               request_number_increment := uc1.request_number_increment + 1 },
           some credit_req, none)
  | ServiceActionType.REDIRECT =>
      if g.service_state = ServiceState.SERVICE_REDIRECTED then
        ({ s with credit_map := aset k g s.credit_map },
         uc1.set_credit_uc k cuc, none, none)
      else
        let (g1, cuc1) := g.set_service_state ServiceState.SERVICE_REDIRECTED cuc
        let action1 := { action with
          redirect_server := g1.final_action_info.redirect_server }
        s.charging_restrict_part k g1 cuc1 uc1 action1
  | ServiceActionType.RESTRICT_ACCESS =>
      s.charging_restrict_part k g cuc uc1 action
  | ServiceActionType.ACTIVATE_SERVICE =>
      s.charging_activate_part k g cuc uc1 action
  | ServiceActionType.TERMINATE_SERVICE =>
      s.charging_terminate_part k g cuc uc1 action

/-- The per-grant loop of `SessionState::get_charging_updates`, iterating
over the credit map entries in order. -/
def Session.charging_go (getAction : ChargingGrant → ServiceActionType)
    (s : Session) (pending : List (CreditKey × ChargingGrant))
    (uc : SessionStateUpdateCriteria) :
    Session × SessionStateUpdateCriteria × List CreditUsageUpdate ×
      List ServiceAction :=
  match pending with
  | [] => (s, uc, [], [])
  | (k, g) :: rest =>
      let (s1, uc1, cr?, act?) := s.charging_step getAction k g uc
      let (s2, uc2, crs, acts) := s1.charging_go getAction rest uc1
      (s2, uc2, cr?.toList ++ crs, act?.toList ++ acts)

/-- Source: `SessionState::get_charging_updates`. -/
def Session.get_charging_updates (getAction : ChargingGrant → ServiceActionType)
    (s : Session) (req : UpdateSessionRequest) (actions : List ServiceAction)
    (uc : SessionStateUpdateCriteria) :
    UpdateSessionRequest × List ServiceAction × Session ×
      SessionStateUpdateCriteria :=
  let (s', uc', crs, acts) := s.charging_go getAction s.credit_map uc
  ({ req with updates := req.updates ++ crs }, actions ++ acts, s', uc')

/-- Source: `SessionState::get_event_trigger_updates` — a READY
REVALIDATION_TIMEOUT trigger emits an empty usage monitor carrying the
trigger and is then cleared. -/
def Session.get_event_trigger_updates (s : Session) (req : UpdateSessionRequest)
    (uc : SessionStateUpdateCriteria) :
    UpdateSessionRequest × Session × SessionStateUpdateCriteria :=
  match alookup EventTrigger.REVALIDATION_TIMEOUT s.pending_event_triggers with
  | some EventTriggerState.READY =>
      let new_req := { s.usage_monitor_common with
        event_trigger := some EventTrigger.REVALIDATION_TIMEOUT }
      let s1 := { s with
        request_number := s.request_number + 1
        pending_event_triggers :=
          aset EventTrigger.REVALIDATION_TIMEOUT EventTriggerState.CLEARED
            (aerase EventTrigger.REVALIDATION_TIMEOUT s.pending_event_triggers) }
      let uc1 := { uc with
        request_number_increment := uc.request_number_increment + 1
        is_pending_event_triggers_updated := true
        pending_event_triggers :=
          aset EventTrigger.REVALIDATION_TIMEOUT EventTriggerState.CLEARED
            uc.pending_event_triggers }
      ({ req with usage_monitors := req.usage_monitors ++ [new_req] }, s1, uc1)
  | _ => (req, s, uc)

/-- Source: `SessionState::get_updates` — all three update kinds are
produced only when the session FSM state is ACTIVE. -/
def Session.get_updates (getAction : ChargingGrant → ServiceActionType)
    (s : Session) (req : UpdateSessionRequest) (actions : List ServiceAction)
    (uc : SessionStateUpdateCriteria) :
    UpdateSessionRequest × List ServiceAction × Session ×
      SessionStateUpdateCriteria :=
  if s.curr_state ≠ SessionFsmState.SESSION_ACTIVE then (req, actions, s, uc)
  else
    let (req1, actions1, s1, uc1) := s.get_charging_updates getAction req actions uc
    let (req2, s2, uc2) := s1.get_monitor_updates req1 uc1
    let (req3, s3, uc3) := s2.get_event_trigger_updates req2 uc2
    (req3, actions1, s3, uc3)

/-- The per-monitor loop of `make_termination_request`. -/
def Session.term_monitors_go (s : Session)
    (pending : List (String × Monitor)) (uc : SessionStateUpdateCriteria) :
    Session × SessionStateUpdateCriteria × List UsageMonitorUpdate :=
  match pending with
  | [] => (s, uc, [])
  | (mkey, m) :: rest =>
      let (cuc, uc1) := s.get_monitor_uc mkey uc
      let (usage, credit', cuc1) := m.credit.get_all_unreported_usage_for_reporting cuc
      let entry := make_usage_monitor_update usage mkey m.level
      let s1 := { s with
        monitor_map := aset mkey { m with credit := credit' } s.monitor_map }
      let (s2, uc2, es) := s1.term_monitors_go rest (uc1.set_monitor_uc mkey cuc1)
      (s2, uc2, entry :: es)

/-- The per-grant loop of `make_termination_request`. -/
def Session.term_credits_go (s : Session)
    (pending : List (CreditKey × ChargingGrant)) (uc : SessionStateUpdateCriteria) :
    Session × SessionStateUpdateCriteria × List CreditUsage :=
  match pending with
  | [] => (s, uc, [])
  | (k, g) :: rest =>
      let (cuc, uc1) := s.get_credit_uc k uc
      let (usage, g1, cuc1) :=
        g.get_credit_usage CreditUsageUpdateType.TERMINATED cuc true
      let usage1 := k.set_credit_usage usage
      let s1 := { s with credit_map := aset k g1 s.credit_map }
      let (s2, uc2, es) := s1.term_credits_go rest (uc1.set_credit_uc k cuc1)
      (s2, uc2, usage1 :: es)

/-- Source: `SessionState::make_termination_request` — one monitor usage
per monitor and one terminal credit usage per grant; the request number is
stamped but NOT incremented. -/
def Session.make_termination_request (s : Session)
    (uc : SessionStateUpdateCriteria) :
    SessionTerminateRequest × Session × SessionStateUpdateCriteria :=
  let (s1, uc1, monitor_usages) := s.term_monitors_go s.monitor_map uc
  let (s2, uc2, credit_usages) := s1.term_credits_go s1.credit_map uc1
  ({ sid := s.imsi
     session_id := s.session_id
     request_number := s.request_number
     ue_ipv4 := s.config.common_context.ue_ipv4
     msisdn := s.config.common_context.msisdn
     apn := s.config.common_context.apn
     rat_type := s.config.common_context.rat_type
     tgpp_ctx := s.tgpp_context
     spgw_ipv4 := match s.config.rat_specific_context with
       | RatSpecificContext.lte c => c.spgw_ipv4
       | _ => ""
     imei := match s.config.rat_specific_context with
       | RatSpecificContext.lte c => c.imei
       | _ => ""
     plmn_id := match s.config.rat_specific_context with
       | RatSpecificContext.lte c => c.plmn_id
       | _ => ""
     imsi_plmn_id := match s.config.rat_specific_context with
       | RatSpecificContext.lte c => c.imsi_plmn_id
       | _ => ""
     user_location := match s.config.rat_specific_context with
       | RatSpecificContext.lte c => c.user_location
       | _ => ""
     hardware_addr := match s.config.rat_specific_context with
       | RatSpecificContext.wlan c => c.mac_addr_binary
       | _ => ""
     monitor_usages := monitor_usages
     credit_usages := credit_usages }, s2, uc2)

/-- Source: `SessionState::complete_termination` — a no-op when the state
is ACTIVE (unexpected) or already TERMINATED; otherwise transition to
TERMINATED and emit the terminate request. -/
def Session.complete_termination (s : Session) (uc : SessionStateUpdateCriteria) :
    Option SessionTerminateRequest × Session × SessionStateUpdateCriteria :=
  match s.curr_state with
  | SessionFsmState.SESSION_ACTIVE => (none, s, uc)
  | SessionFsmState.SESSION_TERMINATED => (none, s, uc)
  | _ =>
      let (s1, uc1) := s.set_fsm_state SessionFsmState.SESSION_TERMINATED uc
      let (req, s2, uc2) := s1.make_termination_request uc1
      (some req, s2, uc2)

/-- Process a list of journal entries in order, stopping at the first
entry whose merge precondition is violated (the early `return false` of
`apply_update_criteria`). -/
def processList {α : Type} (f : Session → α → Option Session) :
    Session → List α → Option Session
  | s, [] => some s
  | s, a :: rest =>
      match f s a with
      | none => none
      | some s' => processList f s' rest

/-- Merge of one entry of `static_rules_to_install`
(`apply_update_criteria`, static-rule install block). -/
def staticInstallStep (uc : SessionStateUpdateCriteria) (s : Session)
    (rid : String) : Option Session :=
  if s.is_static_rule_installed rid then none
  else
    match alookup rid uc.new_rule_lifetimes with
    | some lifetime => some (s.activate_static_rule rid lifetime emptyUC).1
    | none =>
        if s.is_static_rule_scheduled rid then
          some (s.install_scheduled_static_rule rid emptyUC).1
        else none

/-- Merge of one entry of `static_rules_to_uninstall`. -/
def staticUninstallStep (s : Session) (rid : String) : Option Session :=
  if s.is_static_rule_installed rid then
    some (s.deactivate_static_rule rid emptyUC).2.1
  else if s.is_static_rule_scheduled rid then
    let s1 := (s.install_scheduled_static_rule rid emptyUC).1
    some (s1.deactivate_static_rule rid emptyUC).2.1
  else none

/-- Merge of one entry of `new_scheduled_static_rules`; the lifetime read
through `operator[]` defaults to the zero lifetime when absent. -/
def schedStaticStep (uc : SessionStateUpdateCriteria) (s : Session)
    (rid : String) : Option Session :=
  if s.is_static_rule_scheduled rid then none
  else
    let lifetime := (alookup rid uc.new_rule_lifetimes).getD ⟨0, 0⟩
    some (s.schedule_static_rule rid lifetime emptyUC).1

/-- Merge of one entry of `dynamic_rules_to_install`. -/
def dynInstallStep (uc : SessionStateUpdateCriteria) (s : Session)
    (rule : PolicyRule) : Option Session :=
  if s.is_dynamic_rule_installed rule.id then none
  else
    match alookup rule.id uc.new_rule_lifetimes with
    | some lifetime => some (s.insert_dynamic_rule rule lifetime emptyUC).1
    | none =>
        if s.is_dynamic_rule_scheduled rule.id then
          some (s.install_scheduled_dynamic_rule rule.id emptyUC).1
        else none

/-- Merge of one entry of `dynamic_rules_to_uninstall`.  Note the source
calls `install_scheduled_static_rule` (not the dynamic variant) for a
scheduled dynamic rule, and then removes the rule from the ACTIVE dynamic
store, leaving the scheduled store untouched. -/
def dynUninstallStep (s : Session) (rid : String) : Option Session :=
  if s.is_dynamic_rule_installed rid then
    some { s with dynamic_rules := (removeRule s.dynamic_rules rid).2.2 }
  else if s.is_dynamic_rule_scheduled rid then
    let s1 := (s.install_scheduled_static_rule rid emptyUC).1
    some { s1 with dynamic_rules := (removeRule s1.dynamic_rules rid).2.2 }
  else none

/-- Merge of one entry of `new_scheduled_dynamic_rules`. -/
def schedDynStep (uc : SessionStateUpdateCriteria) (s : Session)
    (rule : PolicyRule) : Option Session :=
  if s.is_dynamic_rule_scheduled rule.id then none
  else
    let lifetime := (alookup rule.id uc.new_rule_lifetimes).getD ⟨0, 0⟩
    some (s.schedule_dynamic_rule rule lifetime emptyUC).1

/-- Merge of one entry of `gy_dynamic_rules_to_install`. -/
def gyInstallStep (uc : SessionStateUpdateCriteria) (s : Session)
    (rule : PolicyRule) : Option Session :=
  if s.is_gy_dynamic_rule_installed rule.id then none
  else
    match alookup rule.id uc.new_rule_lifetimes with
    | some lifetime => some (s.insert_gy_dynamic_rule rule lifetime emptyUC).1
    | none => none

/-- Merge of one entry of `gy_dynamic_rules_to_uninstall`. -/
def gyUninstallStep (s : Session) (rid : String) : Option Session :=
  if s.is_gy_dynamic_rule_installed rid then
    some { s with gy_dynamic_rules := (removeRule s.gy_dynamic_rules rid).2.2 }
  else none

/-- Merge of one entry of `restrict_rules_to_install`. -/
def restrictInstallStep (uc : SessionStateUpdateCriteria) (s : Session)
    (rid : String) : Option Session :=
  if s.is_restrict_rule_installed rid then none
  else
    match alookup rid uc.new_rule_lifetimes with
    | some lifetime => some (s.activate_restrict_rule rid lifetime emptyUC).1
    | none => none

/-- Merge of one entry of `restrict_rules_to_uninstall`. -/
def restrictUninstallStep (s : Session) (rid : String) : Option Session :=
  if s.is_restrict_rule_installed rid then
    some (s.deactivate_restrict_rule rid emptyUC).2.1
  else none

/-- Add all journalled bucket deltas to a credit (the bucket loop of
`apply_charging_credit_update` / `apply_monitor_updates`). -/
def SessionCredit.apply_deltas (c : SessionCredit)
    (cuc : SessionCreditUpdateCriteria) : SessionCredit :=
  { c with used_tx := c.used_tx + cuc.delta_used_tx
           used_rx := c.used_rx + cuc.delta_used_rx
           allowed_tx := c.allowed_tx + cuc.delta_allowed_tx
           allowed_rx := c.allowed_rx + cuc.delta_allowed_rx
           reporting_tx := c.reporting_tx + cuc.delta_reporting_tx
           reporting_rx := c.reporting_rx + cuc.delta_reporting_rx
           reported_tx := c.reported_tx + cuc.delta_reported_tx
           reported_rx := c.reported_rx + cuc.delta_reported_rx }

/-- Source: `SessionState::apply_charging_credit_update` — merge one
per-key credit journal entry (deletion, credit merging, grant state). -/
def Session.apply_charging_credit_update (s : Session) (k : CreditKey)
    (cuc : SessionCreditUpdateCriteria) : Session :=
  match alookup k s.credit_map with
  | none => s
  | some g =>
      if cuc.deleted then { s with credit_map := aerase k s.credit_map }
      else
        let c1 := { g.credit with
          grant_tracking_type := cuc.grant_tracking_type
          received_granted_units := cuc.received_granted_units }
        let g1 := { g with
          credit := c1.apply_deltas cuc
          is_final_grant := cuc.is_final
          final_action_info := cuc.final_action_info
          expiry_time := cuc.expiry_time
          reauth_state := cuc.reauth_state
          service_state := cuc.service_state }
        { s with credit_map := aset k g1 s.credit_map }

/-- Source: `SessionState::apply_monitor_updates` — merge one per-monitor
journal entry (credit merging only; deletion is not handled here). -/
def Session.apply_monitor_updates (s : Session) (k : String)
    (cuc : SessionCreditUpdateCriteria) : Session :=
  match alookup k s.monitor_map with
  | none => s
  | some m =>
      let c1 := { m.credit with
        grant_tracking_type := cuc.grant_tracking_type
        received_granted_units := cuc.received_granted_units }
      { s with monitor_map := aset k { m with credit := c1.apply_deltas cuc } s.monitor_map }

/-- Source: `SessionState::apply_update_criteria` — replay a journal onto
a session.  The C++ returns `false` on the first merge-precondition
violation (leaving the object partially mutated, which the caller then
discards); this is modelled as `none`. -/
def Session.apply_update_criteria (s : Session)
    (uc : SessionStateUpdateCriteria) : Option Session :=
  let s := if uc.is_fsm_updated then { s with curr_state := uc.updated_fsm_state } else s
  let s :=
    if uc.is_pending_event_triggers_updated then
      uc.pending_event_triggers.foldl (fun s0 p =>
        let s1 := { s0 with
          pending_event_triggers := aset p.1 p.2 s0.pending_event_triggers }
        if p.1 = EventTrigger.REVALIDATION_TIMEOUT then
          { s1 with revalidation_time := uc.revalidation_time }
        else s1) s
    else s
  let s :=
    if uc.is_bearer_mapping_updated then
      { s with bearer_id_by_policy := uc.bearer_id_by_policy }
    else s
  let s :=
    if uc.is_config_updated then
      match uc.updated_config with
      | some c => { s with config := c }
      | none => s
    else s
  (processList (staticInstallStep uc) s uc.static_rules_to_install).bind fun s =>
  (processList staticUninstallStep s uc.static_rules_to_uninstall).bind fun s =>
  (processList (schedStaticStep uc) s uc.new_scheduled_static_rules).bind fun s =>
  (processList (dynInstallStep uc) s uc.dynamic_rules_to_install).bind fun s =>
  (processList dynUninstallStep s uc.dynamic_rules_to_uninstall).bind fun s =>
  (processList (schedDynStep uc) s uc.new_scheduled_dynamic_rules).bind fun s =>
  (processList (gyInstallStep uc) s uc.gy_dynamic_rules_to_install).bind fun s =>
  (processList gyUninstallStep s uc.gy_dynamic_rules_to_uninstall).bind fun s =>
  (processList (restrictInstallStep uc) s uc.restrict_rules_to_install).bind fun s =>
  (processList restrictUninstallStep s uc.restrict_rules_to_uninstall).bind fun s =>
  let s := uc.charging_credit_map.foldl
    (fun s0 p => s0.apply_charging_credit_update p.1 p.2) s
  let s := uc.charging_credit_to_install.foldl
    (fun s0 p => { s0 with credit_map := aset p.1 p.2 s0.credit_map }) s
  let s :=
    if uc.is_session_level_key_updated then
      { s with session_level_key := uc.updated_session_level_key }
    else s
  let s := uc.monitor_credit_map.foldl
    (fun s0 p => s0.apply_monitor_updates p.1 p.2) s
  let s := uc.monitor_credit_to_install.foldl
    (fun s0 p => { s0 with monitor_map := aset p.1 p.2 s0.monitor_map }) s
  let s :=
    if uc.updated_pdp_end_time > 0 then
      { s with pdp_end_time := uc.updated_pdp_end_time }
    else s
  some s

/-- Durable form of a session (`StoredSessionState`).  The stored forms of
credits, grants and monitors are modelled as the records themselves
(StoredState.h is not part of the excerpt; the spec says marshalling
stores all attributes). -/
structure StoredSessionState where
  fsm_state : SessionFsmState
  config : SessionConfig
  imsi : String
  session_id : String
  subscriber_quota_state : SubscriberQuotaState
  tgpp_context : TgppContext
  request_number : Nat
  pdp_start_time : Nat
  pdp_end_time : Nat
  pending_event_triggers : List (EventTrigger × EventTriggerState)
  revalidation_time : Nat
  bearer_id_by_policy : List (PolicyID × Nat)
  monitor_map : List (String × Monitor)
  session_level_key : String
  credit_map : List (CreditKey × ChargingGrant)
  static_rule_ids : List String
  dynamic_rules : List PolicyRule
  gy_dynamic_rules : List PolicyRule
  scheduled_static_rules : List String
  scheduled_dynamic_rules : List PolicyRule
  rule_lifetimes : List (String × RuleLifetime)
deriving DecidableEq, Repr

/-- Source: `SessionState::marshal`.  Note that `active_restrict_rules_`
is not part of the stored state. -/
def Session.marshal (s : Session) : StoredSessionState :=
  { fsm_state := s.curr_state
    config := s.config
    imsi := s.imsi
    session_id := s.session_id
    subscriber_quota_state := s.subscriber_quota_state
    tgpp_context := s.tgpp_context
    request_number := s.request_number
    pdp_start_time := s.pdp_start_time
    pdp_end_time := s.pdp_end_time
    pending_event_triggers := s.pending_event_triggers
    revalidation_time := s.revalidation_time
    bearer_id_by_policy := s.bearer_id_by_policy
    monitor_map := s.monitor_map.map (fun p => (p.1, (⟨p.2.credit, p.2.level⟩ : Monitor)))
    session_level_key := s.session_level_key
    credit_map := s.credit_map.map
      (fun p => ((⟨p.1.rating_group, p.1.service_identifier⟩ : CreditKey), p.2))
    static_rule_ids := s.active_static_rules
    dynamic_rules := s.dynamic_rules
    gy_dynamic_rules := s.gy_dynamic_rules
    scheduled_static_rules := s.scheduled_static_rules
    scheduled_dynamic_rules := s.scheduled_dynamic_rules
    rule_lifetimes := s.rule_lifetimes }

/-- Source: the unmarshalling constructor
`SessionState::SessionState(const StoredSessionState&, StaticRuleStore&)`.
Dynamic rule stores are rebuilt by inserting each stored rule; the active
restrict-rule list is NOT restored (it starts empty). -/
def Session.unmarshal (m : StoredSessionState) (store : List PolicyRule) : Session :=
  { imsi := m.imsi
    session_id := m.session_id
    request_number := m.request_number
    curr_state := m.fsm_state
    config := m.config
    pdp_start_time := m.pdp_start_time
    pdp_end_time := m.pdp_end_time
    subscriber_quota_state := m.subscriber_quota_state
    tgpp_context := m.tgpp_context
    pending_event_triggers := m.pending_event_triggers
    revalidation_time := m.revalidation_time
    session_level_key := m.session_level_key
    monitor_map := m.monitor_map.map (fun p => (p.1, (⟨p.2.credit, p.2.level⟩ : Monitor)))
    credit_map := m.credit_map
    active_static_rules := m.static_rule_ids
    scheduled_static_rules := m.scheduled_static_rules
    dynamic_rules := m.dynamic_rules.foldl insertRule []
    scheduled_dynamic_rules := m.scheduled_dynamic_rules.foldl insertRule []
    gy_dynamic_rules := m.gy_dynamic_rules.foldl insertRule []
    active_restrict_rules := []
    rule_lifetimes := m.rule_lifetimes
    bearer_id_by_policy := m.bearer_id_by_policy
    static_rule_store := store }

/-- Source: `SessionState::update_session_level_key` — a DISABLE action
clears the session-level key, otherwise the key is adopted. -/
def Session.update_session_level_key (s : Session) (credit : UsageMonitoringCredit)
    (uc : SessionStateUpdateCriteria) : Session × SessionStateUpdateCriteria :=
  let slk :=
    if credit.action = UsageMonitoringAction.DISABLE then ""
    else credit.monitoring_key
  ({ s with session_level_key := slk },
   { uc with is_session_level_key_updated := true,
             updated_session_level_key := slk })

/-- Source: `SessionState::init_new_monitor` — only a successful,
non-DISABLE response installs a new monitor; the journal records the
install. -/
def Session.init_new_monitor (s : Session) (resp : UsageMonitoringUpdateResponse)
    (credit : UsageMonitoringCredit) (uc : SessionStateUpdateCriteria) :
    Bool × Session × SessionStateUpdateCriteria :=
  if !resp.success then (false, s, uc)
  else if credit.action = UsageMonitoringAction.DISABLE then (false, s, uc)
  else
    let (c1, _) := SessionCredit.init.receive_credit credit.granted_units
      SessionCredit.init.get_update_criteria
    let monitor : Monitor := ⟨c1, credit.level⟩
    (true,
     { s with monitor_map := aset credit.monitoring_key monitor s.monitor_map },
     { uc with
         monitor_credit_to_install :=
           aset credit.monitoring_key monitor uc.monitor_credit_to_install })

/-- Source: `SessionState::receive_monitor` — update (or initialise) the
monitor addressed by the response, ignoring updates for monitors already
journalled as deleted. -/
def Session.receive_monitor (s : Session) (resp : UsageMonitoringUpdateResponse)
    (uc : SessionStateUpdateCriteria) :
    Bool × Session × SessionStateUpdateCriteria :=
  match resp.credit with
  | none => (true, s, uc)
  | some credit =>
      let (s1, uc1) :=
        if resp.success ∧ credit.level = MonitoringLevel.SESSION_LEVEL then
          s.update_session_level_key credit uc
        else (s, uc)
      let mkey := credit.monitoring_key
      let journalled_deleted :=
        match alookup mkey uc1.monitor_credit_map with
        | some cuc => cuc.deleted
        | none => false
      if journalled_deleted then (false, s1, uc1)
      else
        match alookup mkey s1.monitor_map with
        | none => s1.init_new_monitor resp credit uc1
        | some m =>
            let (cuc, uc2) := s1.get_monitor_uc mkey uc1
            if !resp.success then
              let (c1, cuc1) := m.credit.mark_failure resp.result_code cuc
              (false,
               { s1 with monitor_map := aset mkey { m with credit := c1 } s1.monitor_map },
               uc2.set_monitor_uc mkey cuc1)
            else
              let (c1, cuc1) := m.credit.receive_credit credit.granted_units cuc
              (true,
               { s1 with monitor_map := aset mkey { m with credit := c1 } s1.monitor_map },
               uc2.set_monitor_uc mkey cuc1)

/-- The session-state operations of this development, used to quantify
over call sequences (the mutating `SessionState` interface of spec
section 4.3 as far as it is embedded here; journal merging
`apply_update_criteria` runs on the store's copy, not on the live
session, and is therefore not a step). -/
inductive SessionOp
  | addRuleUsage (rid : String) (tx rx : Nat)
  | receiveCharging (resp : CreditUpdateResponse)
  | receiveMonitorResp (resp : UsageMonitoringUpdateResponse)
  | syncRules (t : Nat)
  | doGetUpdates (getAction : ChargingGrant → ServiceActionType)
  | makeTermReq
  | markTermination
  | completeTerm
  | reauthOne (k : CreditKey)
  | reauthEvery
  | bindBearer (req : PolicyBearerBindingRequest)
  | activateStatic (rid : String) (lt : RuleLifetime)
  | insertDynamic (rule : PolicyRule) (lt : RuleLifetime)
  | deactivateStatic (rid : String)
  | removeDynamic (rid : String)

/-- Effect of one operation on the session (each call runs with a fresh
journal and its own fresh output request, as the enforcer does per
invocation; only the session component matters for state evolution). -/
def SessionOp.apply (op : SessionOp) (s : Session) : Session :=
  match op with
  | SessionOp.addRuleUsage rid tx rx => (s.add_rule_usage rid tx rx emptyUC).1
  | SessionOp.receiveCharging resp => (s.receive_charging_credit resp emptyUC).2.1
  | SessionOp.receiveMonitorResp resp => (s.receive_monitor resp emptyUC).2.1
  | SessionOp.syncRules t => (s.sync_rules_to_time t emptyUC).1
  | SessionOp.doGetUpdates ga =>
      (s.get_updates ga UpdateSessionRequest.empty [] emptyUC).2.2.1
  | SessionOp.makeTermReq => (s.make_termination_request emptyUC).2.1
  | SessionOp.markTermination => (s.mark_as_awaiting_termination emptyUC).1
  | SessionOp.completeTerm => (s.complete_termination emptyUC).2.1
  | SessionOp.reauthOne k => (s.reauth_key k emptyUC).2.1
  | SessionOp.reauthEvery => (s.reauth_all emptyUC).2.1
  | SessionOp.bindBearer req => (s.bind_policy_to_bearer req emptyUC).1
  | SessionOp.activateStatic rid lt => (s.activate_static_rule rid lt emptyUC).1
  | SessionOp.insertDynamic rule lt => (s.insert_dynamic_rule rule lt emptyUC).1
  | SessionOp.deactivateStatic rid => (s.deactivate_static_rule rid emptyUC).2.1
  | SessionOp.removeDynamic rid => (s.remove_dynamic_rule rid emptyUC).2.1

/-- Run a sequence of session operations left to right. -/
def runOps (l : List SessionOp) (s : Session) : Session :=
  l.foldl (fun s0 op => op.apply s0) s

/-- A baseline LTE session configuration used by the concrete witnesses. -/
def cfg0 : SessionConfig :=
  { common_context :=
      ⟨"192.168.128.11", "5551234", "magma.ipv4", RatType.TGPP_LTE,
       "IMSI001010000000001"⟩
    rat_specific_context :=
      RatSpecificContext.lte ⟨5, "imei01", "00101", "00101", "10.0.0.1", "loc1", 9⟩
    apn_ambr := 100 }

/-- A baseline active session with empty stores, used by the concrete
witnesses. -/
def s0 : Session :=
  { imsi := "IMSI001010000000001"
    session_id := "IMSI001010000000001-583911"
    request_number := 1
    curr_state := SessionFsmState.SESSION_ACTIVE
    config := cfg0
    pdp_start_time := 100
    pdp_end_time := 0
    subscriber_quota_state := SubscriberQuotaState.VALID_QUOTA
    tgpp_context := ⟨"gx.dest.example", "gy.dest.example"⟩
    pending_event_triggers := []
    revalidation_time := 0
    session_level_key := ""
    monitor_map := []
    credit_map := []
    active_static_rules := []
    scheduled_static_rules := []
    dynamic_rules := []
    scheduled_dynamic_rules := []
    gy_dynamic_rules := []
    active_restrict_rules := []
    rule_lifetimes := []
    bearer_id_by_policy := []
    static_rule_store := [] }

/-- The activity predicate exactly as claim C2 words it:
`activationTime < t ∧ (deactivationTime = 0 ∨ deactivationTime > t)`. -/
def claimRuleActive (a d t : Nat) : Bool :=
  decide (a < t) && (decide (d = 0) || decide (d > t))

/-- A session holding the rule lifetime used to refute claim C2. -/
def s2c : Session :=
  { s0 with rule_lifetimes := [("r1", ⟨0, 5⟩)] }

/-- A terminated but otherwise empty session. -/
def s3t : Session :=
  { s0 with curr_state := SessionFsmState.SESSION_TERMINATED }

/-- A session with one monitor and one charging grant, used against claim
C6. -/
def s6 : Session :=
  { s0 with
      monitor_map := [("mk1", ⟨SessionCredit.init, MonitoringLevel.PCC_RULE_LEVEL⟩)]
      credit_map := [(⟨10, 0⟩, ChargingGrant.init)] }

/-- A session holding one scheduled static rule, used against claim C7. -/
def s7 : Session :=
  { s0 with
      scheduled_static_rules := ["rs"]
      rule_lifetimes := [("rs", ⟨50, 100⟩)] }

/-- A session with a scheduled static rule r1 whose lifetime lives only in
the session's own lifetime table, used against claim C8. -/
def s8 : Session :=
  { s0 with
      scheduled_static_rules := ["r1"]
      rule_lifetimes := [("r1", ⟨50, 100⟩)] }

/-- A journal asking to install r1 without recording any lifetime. -/
def uc8 : SessionStateUpdateCriteria :=
  { emptyUC with static_rules_to_install := ["r1"] }

/-- A session holding an active restrict rule, used against claim C9. -/
def s9 : Session :=
  { s0 with active_restrict_rules := ["rr1"] }

/-- The monitoring key a usage-monitor update entry reports on. -/
def umKey (r : UsageMonitoringUpdateRequest) : Option String :=
  r.update.map UsageMonitorUpdate.monitoring_key

/-- A monitor at exactly the 80 percent reporting threshold but below
total exhaustion, with a non-zero current grant. -/
def m5 : Monitor :=
  ⟨{ SessionCredit.init with used_tx := 80, allowed_tx := 100 },
   MonitoringLevel.PCC_RULE_LEVEL⟩

/-- A session carrying the single monitor `m5` under key mk1. -/
def s5 : Session :=
  { s0 with monitor_map := [("mk1", m5)] }

/-- The service action `get_charging_updates` emits for a grant whose
derived action is REDIRECT and whose service is neither redirected nor
restricted yet: the redirect server, the restrict-rule ids, the AMBR and
the rule ids/definitions attached to the charging key, all filled in by
the switch's fall-through into RESTRICT_ACCESS, ACTIVATE_SERVICE and
TERMINATE_SERVICE. -/
def redirectAction (s : Session) (k : CreditKey) (g : ChargingGrant) :
    ServiceAction :=
  { action_type := ServiceActionType.REDIRECT
    redirect_server := g.final_action_info.redirect_server
    restrict_rule_ids := g.final_action_info.restrict_rules
    ambr := some s.config.apn_ambr
    credit_key := k
    imsi := s.imsi
    ip_addr := s.config.common_context.ue_ipv4
    session_id := s.session_id
    rule_ids := get_rule_ids_for_charging_key s.static_rule_store k
    rule_definitions := get_rule_definitions_for_charging_key s.dynamic_rules k }

/-- A final-unit REDIRECT grant whose service is still enabled. -/
def gRed : ChargingGrant :=
  { ChargingGrant.init with
      is_final_grant := true
      final_action_info :=
        ⟨FinalAction.REDIRECT, ⟨"http://www.redirect.example.com"⟩, []⟩ }

/-- A session holding the single REDIRECT grant `gRed` for rating group
10. -/
def s1c : Session :=
  { s0 with credit_map := [(⟨10, 0⟩, gRed)] }

/-- The non-failing head of `apply_update_criteria`: FSM, event triggers,
bearer mapping and config (its first four blocks, verbatim). -/
def Session.apply_prologue (s : Session) (uc : SessionStateUpdateCriteria) :
    Session :=
  let s := if uc.is_fsm_updated then { s with curr_state := uc.updated_fsm_state } else s
  let s :=
    if uc.is_pending_event_triggers_updated then
      uc.pending_event_triggers.foldl (fun s0 p =>
        let s1 := { s0 with
          pending_event_triggers := aset p.1 p.2 s0.pending_event_triggers }
        if p.1 = EventTrigger.REVALIDATION_TIMEOUT then
          { s1 with revalidation_time := uc.revalidation_time }
        else s1) s
    else s
  let s :=
    if uc.is_bearer_mapping_updated then
      { s with bearer_id_by_policy := uc.bearer_id_by_policy }
    else s
  if uc.is_config_updated then
    match uc.updated_config with
    | some c => { s with config := c }
    | none => s
  else s

/-- The non-failing tail of `apply_update_criteria`: charging credits,
session-level key, monitors and pdp end time (its last six blocks,
verbatim). -/
def Session.apply_tail (s : Session) (uc : SessionStateUpdateCriteria) :
    Session :=
  let s := uc.charging_credit_map.foldl
    (fun s0 p => s0.apply_charging_credit_update p.1 p.2) s
  let s := uc.charging_credit_to_install.foldl
    (fun s0 p => { s0 with credit_map := aset p.1 p.2 s0.credit_map }) s
  let s :=
    if uc.is_session_level_key_updated then
      { s with session_level_key := uc.updated_session_level_key }
    else s
  let s := uc.monitor_credit_map.foldl
    (fun s0 p => s0.apply_monitor_updates p.1 p.2) s
  let s := uc.monitor_credit_to_install.foldl
    (fun s0 p => { s0 with monitor_map := aset p.1 p.2 s0.monitor_map }) s
  if uc.updated_pdp_end_time > 0 then
    { s with pdp_end_time := uc.updated_pdp_end_time }
  else s

/-- Chain a list of fallible phases left to right. -/
def chainPhases : List (Session → Option Session) → Session → Option Session
  | [], s => some s
  | f :: fs, s => (f s).bind (chainPhases fs)

/-- The rule-merging phases of `apply_update_criteria`, in source order,
with the non-failing tail as the final phase. -/
def rulePhases (uc : SessionStateUpdateCriteria) :
    List (Session → Option Session) :=
  [fun s => processList (staticInstallStep uc) s uc.static_rules_to_install,
   fun s => processList staticUninstallStep s uc.static_rules_to_uninstall,
   fun s => processList (schedStaticStep uc) s uc.new_scheduled_static_rules,
   fun s => processList (dynInstallStep uc) s uc.dynamic_rules_to_install,
   fun s => processList dynUninstallStep s uc.dynamic_rules_to_uninstall,
   fun s => processList (schedDynStep uc) s uc.new_scheduled_dynamic_rules,
   fun s => processList (gyInstallStep uc) s uc.gy_dynamic_rules_to_install,
   fun s => processList gyUninstallStep s uc.gy_dynamic_rules_to_uninstall,
   fun s => processList (restrictInstallStep uc) s uc.restrict_rules_to_install,
   fun s => processList restrictUninstallStep s uc.restrict_rules_to_uninstall,
   fun s => some (s.apply_tail uc)]

/-- The merge loop reaches entry `a` of list `l` at intermediate state
`s'`: some prefix of `l` before `a` merged successfully into `s'`. -/
def entryReached {α : Type} (f : Session → α → Option Session) (s : Session)
    (l : List α) (a : α) (s' : Session) : Prop :=
  ∃ l1 l2, l = l1 ++ a :: l2 ∧ processList f s l1 = some s'

/-- The merge-precondition violations of claim C8 (amended), per phase of
`apply_update_criteria`, each evaluated at the session state reached when
the offending entry is processed: install of an already-installed rule;
uninstall of a rule neither installed nor scheduled; schedule of an
already-scheduled rule; install of a rule with no lifetime recorded in
the journal that is (for static/dynamic rules) not currently scheduled. -/
def phaseViolation (uc : SessionStateUpdateCriteria) : Nat → Session → Prop
  | 0, s => ∃ rid s', entryReached (staticInstallStep uc) s
      uc.static_rules_to_install rid s' ∧
      (s'.is_static_rule_installed rid = true ∨
       (alookup rid uc.new_rule_lifetimes = none ∧
        s'.is_static_rule_scheduled rid = false))
  | 1, s => ∃ rid s', entryReached staticUninstallStep s
      uc.static_rules_to_uninstall rid s' ∧
      (s'.is_static_rule_installed rid = false ∧
       s'.is_static_rule_scheduled rid = false)
  | 2, s => ∃ rid s', entryReached (schedStaticStep uc) s
      uc.new_scheduled_static_rules rid s' ∧
      s'.is_static_rule_scheduled rid = true
  | 3, s => ∃ rule s', entryReached (dynInstallStep uc) s
      uc.dynamic_rules_to_install rule s' ∧
      (s'.is_dynamic_rule_installed rule.id = true ∨
       (alookup rule.id uc.new_rule_lifetimes = none ∧
        s'.is_dynamic_rule_scheduled rule.id = false))
  | 4, s => ∃ rid s', entryReached dynUninstallStep s
      uc.dynamic_rules_to_uninstall rid s' ∧
      (s'.is_dynamic_rule_installed rid = false ∧
       s'.is_dynamic_rule_scheduled rid = false)
  | 5, s => ∃ rule s', entryReached (schedDynStep uc) s
      uc.new_scheduled_dynamic_rules rule s' ∧
      s'.is_dynamic_rule_scheduled rule.id = true
  | 6, s => ∃ rule s', entryReached (gyInstallStep uc) s
      uc.gy_dynamic_rules_to_install rule s' ∧
      (s'.is_gy_dynamic_rule_installed rule.id = true ∨
       alookup rule.id uc.new_rule_lifetimes = none)
  | 7, s => ∃ rid s', entryReached gyUninstallStep s
      uc.gy_dynamic_rules_to_uninstall rid s' ∧
      s'.is_gy_dynamic_rule_installed rid = false
  | 8, s => ∃ rid s', entryReached (restrictInstallStep uc) s
      uc.restrict_rules_to_install rid s' ∧
      (s'.is_restrict_rule_installed rid = true ∨
       alookup rid uc.new_rule_lifetimes = none)
  | 9, s => ∃ rid s', entryReached restrictUninstallStep s
      uc.restrict_rules_to_uninstall rid s' ∧
      s'.is_restrict_rule_installed rid = false
  | _, _ => False

/-- Looking up the key just set finds the new value. -/
theorem alookup_aset_self {κ ν : Type} [DecidableEq κ] (k : κ) (v : ν)
    (l : List (κ × ν)) : alookup k (aset k v l) = some v := by
  induction l with
  | nil => simp [aset, alookup]
  | cons p rest ih =>
      by_cases h : p.1 = k
      · simp [aset, alookup, h]
      · simpa [aset, alookup, h] using ih

/-- Setting one key does not disturb lookups of another. -/
theorem alookup_aset_ne {κ ν : Type} [DecidableEq κ] {k k' : κ} (v : ν)
    (l : List (κ × ν)) (h : k' ≠ k) :
    alookup k' (aset k v l) = alookup k' l := by
  have hk : ¬(k = k') := fun hh => h hh.symm
  induction l with
  | nil => simp [aset, alookup, hk]
  | cons p rest ih =>
      by_cases hp : p.1 = k
      · subst hp
        simp [aset, alookup, hk]
      · by_cases hp' : p.1 = k'
        · simp [aset, alookup, hp, hp', h]
        · simp [aset, alookup, hp, hp', ih]

/-- Claim C2 is false at a rule with lifetime {activation 0, deactivation
5} queried at t = 5: the source's `should_rule_be_active` returns true
(its deactivation test is `deactivation_time < t`, not `> t`), while the
claim's formula `a < t ∧ (d = 0 ∨ d > t)` is false there. -/
theorem c2_counterexample :
    s2c.should_rule_be_active "r1" 5 = true ∧ claimRuleActive 0 5 5 = false := by
  constructor
  · decide
  · decide

/-- Claim C2 (amended): `should_rule_be_active(rule, t)` returns true iff
`activationTime < t` and (`deactivationTime = 0` or
`deactivationTime ≥ t`); in particular at `t` equal to a non-zero
deactivation time the rule IS still active. -/
theorem c2_rule_active_iff (s : Session) (rid : String) (t : Nat) :
    s.should_rule_be_active rid t = true ↔
      ((s.lifetimeOf rid).activation_time < t ∧
       ((s.lifetimeOf rid).deactivation_time = 0 ∨
        t ≤ (s.lifetimeOf rid).deactivation_time)) := by
  simp only [Session.should_rule_be_active, Bool.and_eq_true, Bool.not_eq_true',
    Bool.and_eq_false_iff, decide_eq_true_eq, decide_eq_false_iff_not, gt_iff_lt,
    not_lt]
  constructor
  · rintro ⟨h1, h2⟩
    refine ⟨h1, ?_⟩
    rcases h2 with h | h
    · left; omega
    · by_cases hd : (s.lifetimeOf rid).deactivation_time = 0
      · exact Or.inl hd
      · right; omega
  · rintro ⟨h1, h2⟩
    refine ⟨h1, ?_⟩
    rcases h2 with h | h
    · left; omega
    · right; omega

/-- Claim C10: a bucket read for a key absent from the credit map
(resp. the monitor map) returns 0 and leaves the session unchanged. -/
theorem c10_missing_key_reads_zero (s : Session) (k : CreditKey) (mk : String)
    (b b' : Bucket) (hc : alookup k s.credit_map = none)
    (hm : alookup mk s.monitor_map = none) :
    s.get_charging_credit k b = (0, s) ∧ s.get_monitor mk b' = (0, s) := by
  constructor
  · simp [Session.get_charging_credit, hc]
  · simp [Session.get_monitor, hm]

/-- Witness for C10 at the empty session and rating group 10 / monitoring
key mk1. -/
theorem c10_missing_key_reads_zero_witness :
    alookup (⟨10, 0⟩ : CreditKey) s0.credit_map = none ∧
    alookup "mk1" s0.monitor_map = none ∧
    (s0.get_charging_credit ⟨10, 0⟩ Bucket.USED_TX = (0, s0) ∧
     s0.get_monitor "mk1" Bucket.USED_RX = (0, s0)) :=
  ⟨rfl, rfl,
   c10_missing_key_reads_zero s0 ⟨10, 0⟩ "mk1" Bucket.USED_TX Bucket.USED_RX rfl rfl⟩

/-- The per-monitor termination loop emits exactly one entry per monitor
map entry, keyed by its monitoring key, and touches neither the request
number nor the credit map. -/
theorem term_monitors_go_spec (pending : List (String × Monitor)) :
    ∀ (s : Session) (uc : SessionStateUpdateCriteria),
      ((s.term_monitors_go pending uc).2.2).map UsageMonitorUpdate.monitoring_key =
          pending.map Prod.fst ∧
      ((s.term_monitors_go pending uc).1).request_number = s.request_number ∧
      ((s.term_monitors_go pending uc).1).credit_map = s.credit_map := by
  induction pending with
  | nil => intro s uc; simp [Session.term_monitors_go]
  | cons p rest ih =>
      intro s uc
      obtain ⟨k, m⟩ := p
      simp only [Session.term_monitors_go, make_usage_monitor_update, List.map_cons]
      refine ⟨?_, ?_, ?_⟩
      · simpa using (ih _ _).1
      · simpa using (ih _ _).2.1
      · simpa using (ih _ _).2.2

/-- The per-grant termination loop emits exactly one entry per credit map
entry, keyed by its charging key, and does not touch the request
number. -/
theorem term_credits_go_spec (pending : List (CreditKey × ChargingGrant)) :
    ∀ (s : Session) (uc : SessionStateUpdateCriteria),
      ((s.term_credits_go pending uc).2.2).map
          (fun u => (u.charging_key, u.service_identifier)) =
        pending.map (fun p => (p.1.rating_group, p.1.service_identifier)) ∧
      ((s.term_credits_go pending uc).1).request_number = s.request_number := by
  induction pending with
  | nil => intro s uc; simp [Session.term_credits_go]
  | cons p rest ih =>
      intro s uc
      obtain ⟨k, g⟩ := p
      simp only [Session.term_credits_go, CreditKey.set_credit_usage,
        ChargingGrant.get_credit_usage, List.map_cons]
      refine ⟨?_, ?_⟩
      · simpa using (ih _ _).1
      · simpa using (ih _ _).2

/-- Claim C6 (amended): `make_termination_request` builds one monitor
usage per monitor and one terminal credit usage per charging grant (keyed
accordingly), stamps the current request number into the request, and
does NOT increment the session's request number (no increment appears in
the source; callers advance it themselves). -/
theorem c6_termination_request_contents (s : Session)
    (uc : SessionStateUpdateCriteria) :
    ((s.make_termination_request uc).1.monitor_usages).map
        UsageMonitorUpdate.monitoring_key = s.monitor_map.map Prod.fst ∧
    ((s.make_termination_request uc).1.credit_usages).map
        (fun u => (u.charging_key, u.service_identifier)) =
      s.credit_map.map (fun p => (p.1.rating_group, p.1.service_identifier)) ∧
    (s.make_termination_request uc).1.request_number = s.request_number ∧
    ((s.make_termination_request uc).2.1).request_number = s.request_number := by
  have hm := term_monitors_go_spec s.monitor_map s uc
  rcases hgo : s.term_monitors_go s.monitor_map uc with ⟨s1, uc1, mus⟩
  rw [hgo] at hm
  have hc := term_credits_go_spec s1.credit_map s1 uc1
  rcases hgo2 : s1.term_credits_go s1.credit_map uc1 with ⟨s2, uc2, cus⟩
  rw [hgo2] at hc
  rw [hm.2.2] at hc
  simp only [Session.make_termination_request, hgo, hgo2]
  exact ⟨hm.1, hc.1, trivial, by rw [hc.2, hm.2.1]⟩

/-- Claim C3 is false on the code: on a TERMINATED session,
`mark_as_awaiting_termination` moves the FSM state away from TERMINATED,
and `activate_static_rule` still installs a rule. -/
theorem c3_counterexample :
    (s3t.mark_as_awaiting_termination emptyUC).1.curr_state ≠
      SessionFsmState.SESSION_TERMINATED ∧
    (s3t.activate_static_rule "rule-x" ⟨0, 0⟩ emptyUC).1.active_static_rules ≠
      s3t.active_static_rules := by
  constructor
  · decide
  · decide

/-- Claim C3 (amended): `SessionState` does not enforce TERMINATED as
terminal.  Only `complete_termination` is a no-op on a TERMINATED
session; `mark_as_awaiting_termination` moves the state to
TERMINATION_SCHEDULED, `activate_static_rule` and `insert_dynamic_rule`
still install rules, a successful `receive_charging_credit` for a new key
still installs a grant, and `add_rule_usage` still adds used credit. -/
theorem c3_terminated_not_enforced (s : Session)
    (h : s.curr_state = SessionFsmState.SESSION_TERMINATED) :
    (∀ uc, s.complete_termination uc = (none, s, uc)) ∧
    (∀ uc, (s.mark_as_awaiting_termination uc).1.curr_state =
        SessionFsmState.SESSION_TERMINATION_SCHEDULED) ∧
    (∀ rid lt uc, (s.activate_static_rule rid lt uc).1.active_static_rules =
        s.active_static_rules ++ [rid]) ∧
    (∀ rule lt uc, s.is_dynamic_rule_installed rule.id = false →
        (s.insert_dynamic_rule rule lt uc).1.dynamic_rules =
          insertRule s.dynamic_rules rule) ∧
    (∀ u uc, alookup u.key s.credit_map = none → u.success = true →
        alookup u.key ((s.receive_charging_credit u uc).2.1.credit_map) ≠ none) ∧
    (∀ rid tx rx uc ck g,
        get_charging_key_for_rule_id s.dynamic_rules rid = some ck →
        alookup ck s.credit_map = some g →
        get_monitoring_key_for_rule_id s.dynamic_rules rid = none →
        get_monitoring_key_for_rule_id s.static_rule_store rid = none →
        s.session_level_key = "" →
        ∃ g', alookup ck ((s.add_rule_usage rid tx rx uc).1.credit_map) = some g' ∧
          g'.credit.used_tx = g.credit.used_tx + tx ∧
          g'.credit.used_rx = g.credit.used_rx + rx) := by
  refine ⟨?_, ?_, ?_, ?_, ?_, ?_⟩
  · intro uc
    simp [Session.complete_termination, h]
  · intro uc
    have hne : s.curr_state ≠ SessionFsmState.SESSION_TERMINATION_SCHEDULED := by
      rw [h]; decide
    simp [Session.mark_as_awaiting_termination, Session.set_fsm_state, hne]
  · intro rid lt uc
    simp [Session.activate_static_rule]
  · intro rule lt uc hni
    simp [Session.insert_dynamic_rule, hni]
  · intro u uc hnone hsucc
    simp [Session.receive_charging_credit, hnone, Session.init_charging_credit,
      hsucc, alookup_aset_self]
  · intro rid tx rx uc ck g hck hg hm1 hm2 hslk
    simp only [Session.add_rule_usage, hck, Option.some_orElse', hg,
      SessionCredit.add_used_credit, ChargingGrant.set_service_state,
      hm1, hm2, Option.none_orElse', Option.getD_none, hslk, ne_eq,
      eq_self_iff_true, not_true, if_false, false_and]
    split
    · exact ⟨_, alookup_aset_self _ _ _, rfl, rfl⟩
    · exact ⟨_, alookup_aset_self _ _ _, rfl, rfl⟩

/-- Witness for C3 at the concrete terminated session `s3t`. -/
theorem c3_terminated_not_enforced_witness :
    s3t.curr_state = SessionFsmState.SESSION_TERMINATED ∧
    ((∀ uc, s3t.complete_termination uc = (none, s3t, uc)) ∧
     (∀ uc, (s3t.mark_as_awaiting_termination uc).1.curr_state =
         SessionFsmState.SESSION_TERMINATION_SCHEDULED) ∧
     (∀ rid lt uc, (s3t.activate_static_rule rid lt uc).1.active_static_rules =
         s3t.active_static_rules ++ [rid]) ∧
     (∀ rule lt uc, s3t.is_dynamic_rule_installed rule.id = false →
         (s3t.insert_dynamic_rule rule lt uc).1.dynamic_rules =
           insertRule s3t.dynamic_rules rule) ∧
     (∀ u uc, alookup u.key s3t.credit_map = none → u.success = true →
         alookup u.key ((s3t.receive_charging_credit u uc).2.1.credit_map) ≠ none) ∧
     (∀ rid tx rx uc ck g,
         get_charging_key_for_rule_id s3t.dynamic_rules rid = some ck →
         alookup ck s3t.credit_map = some g →
         get_monitoring_key_for_rule_id s3t.dynamic_rules rid = none →
         get_monitoring_key_for_rule_id s3t.static_rule_store rid = none →
         s3t.session_level_key = "" →
         ∃ g', alookup ck ((s3t.add_rule_usage rid tx rx uc).1.credit_map) = some g' ∧
           g'.credit.used_tx = g.credit.used_tx + tx ∧
           g'.credit.used_rx = g.credit.used_rx + rx)) :=
  ⟨rfl, c3_terminated_not_enforced s3t rfl⟩

/-- Claim C6 is false on the code as far as the request number is
concerned: `make_termination_request` builds the two usage lists but
leaves the session's request number unchanged (here 1); the claimed
increment to 2 does not happen. -/
theorem c6_counterexample :
    (s6.make_termination_request emptyUC).1.monitor_usages.length = 1 ∧
    (s6.make_termination_request emptyUC).1.credit_usages.length = 1 ∧
    ((s6.make_termination_request emptyUC).2.1).request_number = s6.request_number ∧
    ((s6.make_termination_request emptyUC).2.1).request_number ≠
      s6.request_number + 1 := by
  refine ⟨?_, ?_, ?_, ?_⟩ <;> decide

/-- Claim C7's round-trip property fails at
`deactivate_scheduled_static_rule`: the mutation erases the scheduled
rule but writes nothing into the journal, so replaying the journal on a
clone of the pre-state and marshalling does not reproduce the mutated
session's marshalled state. -/
theorem c7_journal_replay_mismatch :
    (s7.deactivate_scheduled_static_rule "rs" emptyUC).2.2 = emptyUC ∧
    Session.apply_update_criteria s7 emptyUC = some s7 ∧
    (Session.apply_update_criteria s7
        ((s7.deactivate_scheduled_static_rule "rs" emptyUC).2.2)).map Session.marshal ≠
      some ((s7.deactivate_scheduled_static_rule "rs" emptyUC).2.1).marshal := by
  refine ⟨?_, ?_, ?_⟩ <;> decide

/-- Claim C8 is false on the code: a journal that asks to install a rule
with NO lifetime recorded in the journal nevertheless merges successfully
when the rule is currently scheduled (the scheduled-install path). -/
theorem c8_counterexample :
    alookup "r1" uc8.new_rule_lifetimes = none ∧
    (Session.apply_update_criteria s8 uc8).isSome = true := by
  constructor <;> decide

/-- Inserting a rule whose id is fresh appends it. -/
theorem insertRule_not_mem (rules : List PolicyRule) (r : PolicyRule)
    (h : ∀ q ∈ rules, q.id ≠ r.id) : insertRule rules r = rules ++ [r] := by
  unfold insertRule
  rw [if_neg]
  simp only [List.any_eq_true, decide_eq_true_eq, not_exists, not_and]
  exact h

/-- Folding `insert_rule` over rules with pairwise-distinct ids rebuilds
the list. -/
theorem foldl_insertRule (l : List PolicyRule) :
    ∀ acc : List PolicyRule, (∀ q ∈ acc, ∀ p ∈ l, q.id ≠ p.id) →
      (l.map PolicyRule.id).Nodup → l.foldl insertRule acc = acc ++ l := by
  induction l with
  | nil => intro acc _ _; simp
  | cons r rest ih =>
      intro acc h hn
      simp only [List.map_cons, List.nodup_cons] at hn
      simp only [List.foldl_cons]
      rw [insertRule_not_mem acc r (fun q hq => h q hq r (List.mem_cons_self r rest))]
      rw [ih (acc ++ [r]) ?_ hn.2]
      · simp
      · intro q hq p hp
        rcases List.mem_append.mp hq with hq | hq
        · exact h q hq p (List.mem_cons_of_mem r hp)
        · have hqr : q = r := by simpa using hq
          subst hqr
          intro he
          exact hn.1 (he ▸ List.mem_map_of_mem PolicyRule.id hp)

/-- Claim C9 (amended): unmarshalling the marshalled form of a session
(against the same static rule store) restores every observable field
EXCEPT the active restrict rules, which are not marshalled and come back
empty.  The duplicate-free-id hypotheses reflect the bimap invariant of
the dynamic stores. -/
theorem c9_roundtrip (s : Session)
    (h1 : (s.dynamic_rules.map PolicyRule.id).Nodup)
    (h2 : (s.scheduled_dynamic_rules.map PolicyRule.id).Nodup)
    (h3 : (s.gy_dynamic_rules.map PolicyRule.id).Nodup) :
    Session.unmarshal s.marshal s.static_rule_store =
      { s with active_restrict_rules := [] } := by
  have e1 : s.dynamic_rules.foldl insertRule [] = s.dynamic_rules := by
    simpa using foldl_insertRule s.dynamic_rules [] (by simp) h1
  have e2 : s.scheduled_dynamic_rules.foldl insertRule [] =
      s.scheduled_dynamic_rules := by
    simpa using foldl_insertRule s.scheduled_dynamic_rules [] (by simp) h2
  have e3 : s.gy_dynamic_rules.foldl insertRule [] = s.gy_dynamic_rules := by
    simpa using foldl_insertRule s.gy_dynamic_rules [] (by simp) h3
  have emon : ∀ l : List (String × Monitor),
      l.map (fun p => (p.1, (⟨p.2.credit, p.2.level⟩ : Monitor))) = l := by
    intro l
    have : (fun p : String × Monitor =>
        (p.1, (⟨p.2.credit, p.2.level⟩ : Monitor))) = id := rfl
    rw [this, List.map_id]
  have ecm : ∀ l : List (CreditKey × ChargingGrant),
      l.map (fun p =>
        ((⟨p.1.rating_group, p.1.service_identifier⟩ : CreditKey), p.2)) = l := by
    intro l
    have : (fun p : CreditKey × ChargingGrant =>
        ((⟨p.1.rating_group, p.1.service_identifier⟩ : CreditKey), p.2)) = id := rfl
    rw [this, List.map_id]
  simp [Session.unmarshal, Session.marshal, e1, e2, e3, emon, ecm]

/-- Claim C9 is false on the code: the marshal/unmarshal round trip loses
the active restrict rules (they are not part of the stored state). -/
theorem c9_counterexample :
    Session.unmarshal s9.marshal s9.static_rule_store ≠ s9 ∧
    (Session.unmarshal s9.marshal s9.static_rule_store).active_restrict_rules = [] ∧
    s9.active_restrict_rules = ["rr1"] := by
  refine ⟨?_, ?_, ?_⟩ <;> decide

/-- Witness for C9 at the concrete session `s9` (duplicate-free stores). -/
theorem c9_roundtrip_witness :
    ((s9.dynamic_rules.map PolicyRule.id).Nodup ∧
     (s9.scheduled_dynamic_rules.map PolicyRule.id).Nodup ∧
     (s9.gy_dynamic_rules.map PolicyRule.id).Nodup) ∧
    Session.unmarshal s9.marshal s9.static_rule_store =
      { s9 with active_restrict_rules := [] } :=
  ⟨⟨by decide, by decide, by decide⟩,
   c9_roundtrip s9 (by decide) (by decide) (by decide)⟩

/-- In a map with duplicate-free keys, a key determines its value. -/
theorem nodup_key_unique {κ ν : Type} [DecidableEq κ] {l : List (κ × ν)}
    (hnd : (l.map Prod.fst).Nodup) {k : κ} {v v' : ν}
    (h1 : (k, v) ∈ l) (h2 : (k, v') ∈ l) : v = v' := by
  induction l with
  | nil => cases h1
  | cons p rest ih =>
      simp only [List.map_cons, List.nodup_cons] at hnd
      rcases List.mem_cons.mp h1 with h1 | h1 <;>
        rcases List.mem_cons.mp h2 with h2 | h2
      · exact congrArg Prod.snd (h1.trans h2.symm)
      · exfalso
        apply hnd.1
        have hk : k ∈ rest.map Prod.fst := by
          simpa using List.mem_map_of_mem Prod.fst h2
        rw [← h1]
        simpa using hk
      · exfalso
        apply hnd.1
        have hk : k ∈ rest.map Prod.fst := by
          simpa using List.mem_map_of_mem Prod.fst h1
        rw [← h2]
        simpa using hk
      · exact ih hnd.2 h1 h2

/-- The monitor loop emits entries exactly for the non-skipped monitors,
keyed by their monitoring keys. -/
theorem monitors_go_keys (pending : List (String × Monitor)) :
    ∀ (s : Session) (uc : SessionStateUpdateCriteria),
      ((s.monitors_go pending uc).2.2).map umKey =
        (pending.filter (fun p => !(monitorUpdateSkipped p.2))).map
          (fun p => some p.1) := by
  induction pending with
  | nil => intro s uc; simp [Session.monitors_go]
  | cons p rest ih =>
      intro s uc
      obtain ⟨k, m⟩ := p
      by_cases hskip : monitorUpdateSkipped m = true
      · simp [Session.monitors_go, Session.monitor_step, hskip, ih]
      · simp only [Bool.not_eq_true] at hskip
        simp [Session.monitors_go, Session.monitor_step, hskip, ih, umKey,
          make_usage_monitor_update]

/-- The skip condition is false exactly when the claim's emission
condition holds: partially exhausted, and not in the deferred
zero-grant-not-yet-total case. -/
theorem monitorUpdateSkipped_eq_false_iff (m : Monitor) :
    monitorUpdateSkipped m = false ↔
      (m.credit.is_quota_exhausted USAGE_REPORTING_THRESHOLD = true ∧
       ¬(m.credit.is_quota_exhausted 100 = false ∧
         m.credit.current_grant_contains_zero = true)) := by
  unfold monitorUpdateSkipped
  cases h80 : m.credit.is_quota_exhausted USAGE_REPORTING_THRESHOLD <;>
    cases h100 : m.credit.is_quota_exhausted 100 <;>
      cases hz : m.credit.current_grant_contains_zero <;> simp

/-- Claim C5: `get_monitor_updates` emits a usage-monitor update for a
monitor exactly when its credit is partially exhausted (at the
usage-reporting threshold), except that a zero-valued current grant that
is not yet totally exhausted defers the update. -/
theorem c5_monitor_update_iff (s : Session) (uc : SessionStateUpdateCriteria)
    (k : String) (m : Monitor) (hmem : (k, m) ∈ s.monitor_map)
    (hnd : (s.monitor_map.map Prod.fst).Nodup) :
    (∃ r ∈ (s.get_monitor_updates UpdateSessionRequest.empty uc).1.usage_monitors,
        umKey r = some k) ↔
      (m.credit.is_quota_exhausted USAGE_REPORTING_THRESHOLD = true ∧
       ¬(m.credit.is_quota_exhausted 100 = false ∧
         m.credit.current_grant_contains_zero = true)) := by
  rw [← monitorUpdateSkipped_eq_false_iff]
  have hkeys := monitors_go_keys s.monitor_map s uc
  rcases hgo : s.monitors_go s.monitor_map uc with ⟨s1, uc1, rs⟩
  rw [hgo] at hkeys
  simp only at hkeys
  have hmem_iff :
      (∃ r ∈ rs, umKey r = some k) ↔ some k ∈ rs.map umKey := by
    simp [List.mem_map, eq_comm]
  constructor
  · intro hex
    rw [Session.get_monitor_updates, hgo] at hex
    simp only [UpdateSessionRequest.empty, List.nil_append] at hex
    have := hmem_iff.mp hex
    rw [hkeys] at this
    rcases List.mem_map.mp this with ⟨p, hp, hpk⟩
    have hpmem := (List.mem_filter.mp hp).1
    have hpskip := (List.mem_filter.mp hp).2
    have hk : p.1 = k := by simpa using hpk
    have : p.2 = m := by
      apply nodup_key_unique hnd _ hmem
      rw [← hk]
      exact hpmem
    rw [← this]
    simpa using hpskip
  · intro hcond
    rw [Session.get_monitor_updates, hgo]
    simp only [UpdateSessionRequest.empty, List.nil_append]
    apply hmem_iff.mpr
    rw [hkeys]
    apply List.mem_map.mpr
    refine ⟨(k, m), List.mem_filter.mpr ⟨hmem, ?_⟩, rfl⟩
    simpa using hcond

/-- Witness for C5 at the concrete session `s5`: the monitor is partially
but not totally exhausted with a non-zero grant, so an update is
emitted. -/
theorem c5_monitor_update_iff_witness :
    (("mk1", m5) ∈ s5.monitor_map ∧ (s5.monitor_map.map Prod.fst).Nodup) ∧
    (∃ r ∈ (s5.get_monitor_updates UpdateSessionRequest.empty emptyUC).1.usage_monitors,
        umKey r = some "mk1") :=
  ⟨⟨by decide, by decide⟩,
   (c5_monitor_update_iff s5 emptyUC "mk1" m5 (by decide) (by decide)).mpr
     (by decide)⟩

/-- `set_fsm_state` always leaves the session in the requested state. -/
theorem set_fsm_state_state (s : Session) (st : SessionFsmState)
    (uc : SessionStateUpdateCriteria) :
    ((s.set_fsm_state st uc).1).curr_state = st := by
  unfold Session.set_fsm_state
  split
  · rfl
  · next h => simpa using (not_not.mp (by simpa using h))

/-- `mark_as_awaiting_termination` leaves the session in
TERMINATION_SCHEDULED. -/
theorem mark_as_awaiting_termination_state (s : Session)
    (uc : SessionStateUpdateCriteria) :
    ((s.mark_as_awaiting_termination uc).1).curr_state =
      SessionFsmState.SESSION_TERMINATION_SCHEDULED :=
  set_fsm_state_state s _ uc

/-- `deactivate_static_rule` does not change the FSM state. -/
theorem deactivate_static_rule_state (s : Session) (rid : String)
    (uc : SessionStateUpdateCriteria) :
    ((s.deactivate_static_rule rid uc).2.1).curr_state = s.curr_state := by
  unfold Session.deactivate_static_rule
  split <;> rfl

/-- `deactivate_restrict_rule` does not change the FSM state. -/
theorem deactivate_restrict_rule_state (s : Session) (rid : String)
    (uc : SessionStateUpdateCriteria) :
    ((s.deactivate_restrict_rule rid uc).2.1).curr_state = s.curr_state := by
  unfold Session.deactivate_restrict_rule
  split <;> rfl

/-- `remove_dynamic_rule` does not change the FSM state. -/
theorem remove_dynamic_rule_state (s : Session) (rid : String)
    (uc : SessionStateUpdateCriteria) :
    ((s.remove_dynamic_rule rid uc).2.1).curr_state = s.curr_state := by
  unfold Session.remove_dynamic_rule
  repeat' split
  all_goals rfl

/-- `remove_scheduled_dynamic_rule` does not change the FSM state. -/
theorem remove_scheduled_dynamic_rule_state (s : Session) (rid : String)
    (uc : SessionStateUpdateCriteria) :
    ((s.remove_scheduled_dynamic_rule rid uc).2.1).curr_state = s.curr_state := by
  unfold Session.remove_scheduled_dynamic_rule
  repeat' split
  all_goals rfl

/-- `install_scheduled_dynamic_rule` does not change the FSM state. -/
theorem install_scheduled_dynamic_rule_state (s : Session) (rid : String)
    (uc : SessionStateUpdateCriteria) :
    ((s.install_scheduled_dynamic_rule rid uc).1).curr_state = s.curr_state := by
  unfold Session.install_scheduled_dynamic_rule
  repeat' split
  all_goals rfl

/-- `add_to_monitor` does not change the FSM state. -/
theorem add_to_monitor_state (s : Session) (key : String) (tx rx : Nat)
    (uc : SessionStateUpdateCriteria) :
    ((s.add_to_monitor key tx rx uc).2.1).curr_state = s.curr_state := by
  unfold Session.add_to_monitor
  repeat' split
  all_goals rfl

/-- `add_rule_usage` does not change the FSM state. -/
theorem add_rule_usage_state (s : Session) (rid : String) (tx rx : Nat)
    (uc : SessionStateUpdateCriteria) :
    ((s.add_rule_usage rid tx rx uc).1).curr_state = s.curr_state := by
  unfold Session.add_rule_usage
  dsimp only
  repeat' split
  all_goals simp [add_to_monitor_state]

/-- `init_charging_credit` does not change the FSM state. -/
theorem init_charging_credit_state (s : Session) (u : CreditUpdateResponse)
    (uc : SessionStateUpdateCriteria) :
    ((s.init_charging_credit u uc).2.1).curr_state = s.curr_state := by
  unfold Session.init_charging_credit
  split <;> rfl

/-- `receive_charging_credit` does not change the FSM state. -/
theorem receive_charging_credit_state (s : Session) (u : CreditUpdateResponse)
    (uc : SessionStateUpdateCriteria) :
    ((s.receive_charging_credit u uc).2.1).curr_state = s.curr_state := by
  unfold Session.receive_charging_credit
  dsimp only
  repeat' split
  all_goals first
    | exact init_charging_credit_state s u uc
    | rfl

/-- `init_new_monitor` does not change the FSM state. -/
theorem init_new_monitor_state (s : Session) (resp : UsageMonitoringUpdateResponse)
    (credit : UsageMonitoringCredit) (uc : SessionStateUpdateCriteria) :
    ((s.init_new_monitor resp credit uc).2.1).curr_state = s.curr_state := by
  unfold Session.init_new_monitor
  split
  · rfl
  · split <;> rfl

/-- `receive_monitor` does not change the FSM state. -/
theorem receive_monitor_state (s : Session) (resp : UsageMonitoringUpdateResponse)
    (uc : SessionStateUpdateCriteria) :
    ((s.receive_monitor resp uc).2.1).curr_state = s.curr_state := by
  unfold Session.receive_monitor
  split
  · rfl
  case h_2 credit heq =>
    rcases hif : (if resp.success = true ∧ credit.level = MonitoringLevel.SESSION_LEVEL
        then s.update_session_level_key credit uc else (s, uc)) with ⟨s1, uc1⟩
    have hs1 : s1.curr_state = s.curr_state := by
      by_cases hc : resp.success = true ∧ credit.level = MonitoringLevel.SESSION_LEVEL
      · rw [if_pos hc] at hif
        have := congrArg (fun p => (Prod.fst p).curr_state) hif
        simpa [Session.update_session_level_key] using this.symm
      · rw [if_neg hc] at hif
        have := congrArg (fun p => (Prod.fst p).curr_state) hif
        simpa using this.symm
    dsimp only
    repeat' split
    all_goals first
      | exact hs1
      | (rw [init_new_monitor_state]; exact hs1)

/-- `reauth_key` does not change the FSM state. -/
theorem reauth_key_state (s : Session) (k : CreditKey)
    (uc : SessionStateUpdateCriteria) :
    ((s.reauth_key k uc).2.1).curr_state = s.curr_state := by
  unfold Session.reauth_key
  split
  · split <;> rfl
  · rfl

/-- `reauth_all` does not change the FSM state. -/
theorem reauth_all_state (s : Session) (uc : SessionStateUpdateCriteria) :
    ((s.reauth_all uc).2.1).curr_state = s.curr_state := by
  unfold Session.reauth_all
  rfl

/-- `bind_policy_to_bearer` does not change the FSM state. -/
theorem bind_policy_to_bearer_state (s : Session)
    (req : PolicyBearerBindingRequest) (uc : SessionStateUpdateCriteria) :
    ((s.bind_policy_to_bearer req uc).1).curr_state = s.curr_state := by
  unfold Session.bind_policy_to_bearer
  split <;> rfl

/-- Folding a state-preserving step preserves the FSM state. -/
theorem foldl_preserves_state {α : Type}
    (f : (Session × SessionStateUpdateCriteria) → α →
      (Session × SessionStateUpdateCriteria))
    (hf : ∀ acc a, ((f acc a).1).curr_state = acc.1.curr_state) :
    ∀ (l : List α) (acc : Session × SessionStateUpdateCriteria),
      ((l.foldl f acc).1).curr_state = acc.1.curr_state := by
  intro l
  induction l with
  | nil => intro acc; rfl
  | cons a rest ih => intro acc; rw [List.foldl_cons, ih, hf]

/-- `sync_rules_to_time` does not change the FSM state. -/
theorem sync_rules_to_time_state (s : Session) (t : Nat)
    (uc : SessionStateUpdateCriteria) :
    ((s.sync_rules_to_time t uc).1).curr_state = s.curr_state := by
  unfold Session.sync_rules_to_time
  rw [foldl_preserves_state, foldl_preserves_state, foldl_preserves_state,
    foldl_preserves_state]
  · intro acc a
    split
    · exact deactivate_static_rule_state _ _ _
    · rfl
  · intro acc a
    split
    · rfl
    · split <;> rfl
  · intro acc a
    split
    · exact remove_dynamic_rule_state _ _ _
    · rfl
  · intro acc a
    split
    · exact install_scheduled_dynamic_rule_state _ _ _
    · split
      · exact remove_scheduled_dynamic_rule_state _ _ _
      · rfl

/-- The per-monitor termination loop does not change the FSM state. -/
theorem term_monitors_go_state (pending : List (String × Monitor)) :
    ∀ (s : Session) (uc : SessionStateUpdateCriteria),
      ((s.term_monitors_go pending uc).1).curr_state = s.curr_state := by
  induction pending with
  | nil => intro s uc; rfl
  | cons p rest ih =>
      intro s uc
      obtain ⟨k, m⟩ := p
      simp [Session.term_monitors_go, ih]

/-- The per-grant termination loop does not change the FSM state. -/
theorem term_credits_go_state (pending : List (CreditKey × ChargingGrant)) :
    ∀ (s : Session) (uc : SessionStateUpdateCriteria),
      ((s.term_credits_go pending uc).1).curr_state = s.curr_state := by
  induction pending with
  | nil => intro s uc; rfl
  | cons p rest ih =>
      intro s uc
      obtain ⟨k, g⟩ := p
      simp [Session.term_credits_go, ih]

/-- `make_termination_request` does not change the FSM state. -/
theorem make_termination_request_state (s : Session)
    (uc : SessionStateUpdateCriteria) :
    ((s.make_termination_request uc).2.1).curr_state = s.curr_state := by
  rcases hgo : s.term_monitors_go s.monitor_map uc with ⟨s1, uc1, mus⟩
  have h1 := term_monitors_go_state s.monitor_map s uc
  rw [hgo] at h1
  rcases hgo2 : s1.term_credits_go s1.credit_map uc1 with ⟨s2, uc2, cus⟩
  have h2 := term_credits_go_state s1.credit_map s1 uc1
  rw [hgo2] at h2
  simp only [Session.make_termination_request, hgo, hgo2]
  simp only at h1 h2
  rw [h2, h1]

/-- After `complete_termination` the session is either unchanged in state
or TERMINATED. -/
theorem complete_termination_state (s : Session)
    (uc : SessionStateUpdateCriteria) :
    ((s.complete_termination uc).2.1).curr_state = s.curr_state ∨
    ((s.complete_termination uc).2.1).curr_state =
      SessionFsmState.SESSION_TERMINATED := by
  unfold Session.complete_termination
  split
  · exact Or.inl rfl
  · exact Or.inl rfl
  · right
    rw [make_termination_request_state, set_fsm_state_state]

/-- `get_updates` on a session whose FSM state is not ACTIVE returns
everything unchanged: no charging, monitor or event-trigger update is
produced. -/
theorem get_updates_not_active (s : Session)
    (ga : ChargingGrant → ServiceActionType) (req : UpdateSessionRequest)
    (acts : List ServiceAction) (uc : SessionStateUpdateCriteria)
    (h : s.curr_state ≠ SessionFsmState.SESSION_ACTIVE) :
    s.get_updates ga req acts uc = (req, acts, s, uc) := by
  unfold Session.get_updates
  rw [if_pos h]

/-- Every embedded session operation keeps the FSM state away from ACTIVE
once it is away: no operation of the interface sets the state back to
ACTIVE. -/
theorem step_preserves_not_active (op : SessionOp) (s : Session)
    (h : s.curr_state ≠ SessionFsmState.SESSION_ACTIVE) :
    (op.apply s).curr_state ≠ SessionFsmState.SESSION_ACTIVE := by
  cases op with
  | addRuleUsage rid tx rx =>
      rw [SessionOp.apply, add_rule_usage_state]; exact h
  | receiveCharging resp =>
      rw [SessionOp.apply, receive_charging_credit_state]; exact h
  | receiveMonitorResp resp =>
      rw [SessionOp.apply, receive_monitor_state]; exact h
  | syncRules t =>
      rw [SessionOp.apply, sync_rules_to_time_state]; exact h
  | doGetUpdates ga =>
      rw [SessionOp.apply, get_updates_not_active _ _ _ _ _ h]; exact h
  | makeTermReq =>
      rw [SessionOp.apply, make_termination_request_state]; exact h
  | markTermination =>
      rw [SessionOp.apply, mark_as_awaiting_termination_state]; decide
  | completeTerm =>
      rw [SessionOp.apply]
      rcases complete_termination_state s emptyUC with hc | hc <;> rw [hc]
      · exact h
      · decide
  | reauthOne k =>
      rw [SessionOp.apply, reauth_key_state]; exact h
  | reauthEvery =>
      rw [SessionOp.apply, reauth_all_state]; exact h
  | bindBearer req =>
      rw [SessionOp.apply, bind_policy_to_bearer_state]; exact h
  | activateStatic rid lt =>
      rw [SessionOp.apply]; exact h
  | insertDynamic rule lt =>
      rw [SessionOp.apply]
      unfold Session.insert_dynamic_rule
      split <;> exact h
  | deactivateStatic rid =>
      rw [SessionOp.apply, deactivate_static_rule_state]; exact h
  | removeDynamic rid =>
      rw [SessionOp.apply, remove_dynamic_rule_state]; exact h

/-- A state away from ACTIVE stays away from ACTIVE along any operation
sequence. -/
theorem runOps_preserves_not_active (l : List SessionOp) :
    ∀ s : Session, s.curr_state ≠ SessionFsmState.SESSION_ACTIVE →
      (runOps l s).curr_state ≠ SessionFsmState.SESSION_ACTIVE := by
  induction l with
  | nil => intro s h; exact h
  | cons op rest ih =>
      intro s h
      exact ih _ (step_preserves_not_active op s h)

/-- Claim C4: `get_updates` produces updates only when the FSM state is
ACTIVE (otherwise request, actions, session and journal are returned
untouched), and once `mark_as_awaiting_termination` has moved a session
to TERMINATION_SCHEDULED, no sequence of the embedded session operations
brings it back to ACTIVE, so every later `get_updates` call leaves the
update request unchanged — in particular it never appends a
CreditUsageUpdate. -/
theorem c4_no_updates_after_termination_scheduled (t s : Session)
    (h : t.curr_state ≠ SessionFsmState.SESSION_ACTIVE)
    (uc uc' : SessionStateUpdateCriteria) (l : List SessionOp)
    (ga : ChargingGrant → ServiceActionType) (req : UpdateSessionRequest)
    (acts : List ServiceAction) :
    t.get_updates ga req acts uc' = (req, acts, t, uc') ∧
    ((runOps l ((s.mark_as_awaiting_termination uc).1)).get_updates ga req acts
        uc').1 = req := by
  constructor
  · exact get_updates_not_active t ga req acts uc' h
  · have h0 : ((s.mark_as_awaiting_termination uc).1).curr_state ≠
        SessionFsmState.SESSION_ACTIVE := by
      rw [mark_as_awaiting_termination_state]; decide
    have h1 := runOps_preserves_not_active l _ h0
    rw [get_updates_not_active _ ga req acts uc' h1]

/-- Witness for C4 at concrete sessions: a TERMINATED session's
`get_updates` is a no-op, and after marking the baseline session for
termination and making a termination request, `get_updates` leaves the
request empty. -/
theorem c4_no_updates_after_termination_scheduled_witness :
    s3t.curr_state ≠ SessionFsmState.SESSION_ACTIVE ∧
    (s3t.get_updates (fun _ => ServiceActionType.CONTINUE_SERVICE)
        UpdateSessionRequest.empty [] emptyUC =
        (UpdateSessionRequest.empty, [], s3t, emptyUC) ∧
     ((runOps [SessionOp.makeTermReq]
          ((s0.mark_as_awaiting_termination emptyUC).1)).get_updates
          (fun _ => ServiceActionType.CONTINUE_SERVICE)
          UpdateSessionRequest.empty [] emptyUC).1 = UpdateSessionRequest.empty) :=
  ⟨by decide,
   c4_no_updates_after_termination_scheduled s3t s0 (by decide) emptyUC emptyUC
     [SessionOp.makeTermReq] (fun _ => ServiceActionType.CONTINUE_SERVICE)
     UpdateSessionRequest.empty []⟩

/-- One switch iteration only rewrites the credit map and the request
number of the session. -/
theorem charging_step_shape (ga : ChargingGrant → ServiceActionType)
    (s : Session) (k : CreditKey) (g : ChargingGrant)
    (uc : SessionStateUpdateCriteria) :
    ∃ cm rn, (s.charging_step ga k g uc).1 =
      { s with credit_map := cm, request_number := rn } := by
  unfold Session.charging_step Session.charging_restrict_part
    Session.charging_activate_part Session.charging_terminate_part
  dsimp only
  repeat' split
  all_goals exact ⟨_, _, rfl⟩

/-- One switch iteration touches at most the binding of its own key in
the credit map. -/
theorem charging_step_credit_map (ga : ChargingGrant → ServiceActionType)
    (s : Session) (k : CreditKey) (g : ChargingGrant)
    (uc : SessionStateUpdateCriteria) :
    ((s.charging_step ga k g uc).1).credit_map = s.credit_map ∨
    ∃ g', ((s.charging_step ga k g uc).1).credit_map = aset k g' s.credit_map := by
  unfold Session.charging_step Session.charging_restrict_part
    Session.charging_activate_part Session.charging_terminate_part
  dsimp only
  repeat' split
  all_goals first
    | exact Or.inl rfl
    | exact Or.inr ⟨_, rfl⟩

/-- Evaluation of one switch iteration in the REDIRECT case when the
service is neither redirected nor restricted: the grant passes through
SERVICE_REDIRECTED and ends RESTRICTED, and the fully populated action is
emitted. -/
theorem charging_step_redirect (ga : ChargingGrant → ServiceActionType)
    (s : Session) (k : CreditKey) (g : ChargingGrant)
    (uc : SessionStateUpdateCriteria)
    (hga : ga g = ServiceActionType.REDIRECT)
    (h1 : g.service_state ≠ ServiceState.SERVICE_REDIRECTED) :
    ((s.charging_step ga k g uc).1).credit_map =
      aset k { g with service_state := ServiceState.SERVICE_RESTRICTED }
        s.credit_map ∧
    (s.charging_step ga k g uc).2.2.2 = some (redirectAction s k g) := by
  unfold Session.charging_step
  simp only [hga]
  rw [if_neg h1]
  simp [Session.charging_restrict_part, Session.charging_activate_part,
    Session.charging_terminate_part, ChargingGrant.set_service_state,
    ServiceAction.init, redirectAction]

/-- The per-grant loop leaves bindings of keys it never visits alone. -/
theorem charging_go_alookup_not_mem (ga : ChargingGrant → ServiceActionType)
    (k : CreditKey) (pending : List (CreditKey × ChargingGrant)) :
    ∀ (s : Session) (uc : SessionStateUpdateCriteria),
      k ∉ pending.map Prod.fst →
      alookup k ((s.charging_go ga pending uc).1).credit_map =
        alookup k s.credit_map := by
  induction pending with
  | nil => intro s uc _; rfl
  | cons p rest ih =>
      intro s uc hk
      obtain ⟨k', g'⟩ := p
      simp only [List.map_cons, List.mem_cons, not_or] at hk
      rcases hstep : s.charging_step ga k' g' uc with ⟨s1, uc1, cr?, act?⟩
      simp only [Session.charging_go, hstep]
      rcases hgo : s1.charging_go ga rest uc1 with ⟨s2, uc2, crs, acts⟩
      have := ih s1 uc1 hk.2
      rw [hgo] at this
      simp only at this ⊢
      rw [this]
      rcases charging_step_credit_map ga s k' g' uc with hcm | ⟨gX, hcm⟩ <;>
        rw [hstep] at hcm <;> simp only at hcm <;> rw [hcm]
      exact alookup_aset_ne gX s.credit_map hk.1

/-- Main loop lemma for claim C1: a REDIRECT grant that is neither
redirected nor restricted yet has its fully populated action emitted and
ends with service state RESTRICTED. -/
theorem charging_go_redirect (ga : ChargingGrant → ServiceActionType)
    (k : CreditKey) (g : ChargingGrant)
    (hga : ga g = ServiceActionType.REDIRECT)
    (h1 : g.service_state ≠ ServiceState.SERVICE_REDIRECTED) :
    ∀ (pending : List (CreditKey × ChargingGrant)) (s : Session)
      (uc : SessionStateUpdateCriteria),
      (k, g) ∈ pending → (pending.map Prod.fst).Nodup →
      redirectAction s k g ∈ (s.charging_go ga pending uc).2.2.2 ∧
      alookup k ((s.charging_go ga pending uc).1).credit_map =
        some { g with service_state := ServiceState.SERVICE_RESTRICTED } := by
  intro pending
  induction pending with
  | nil => intro s uc hmem; cases hmem
  | cons p rest ih =>
      intro s uc hmem hnd
      obtain ⟨k', g'⟩ := p
      simp only [List.map_cons, List.nodup_cons] at hnd
      rcases hstep : s.charging_step ga k' g' uc with ⟨s1, uc1, cr?, act?⟩
      rcases hgo : s1.charging_go ga rest uc1 with ⟨s2, uc2, crs, acts⟩
      simp only [Session.charging_go, hstep, hgo]
      rcases List.mem_cons.mp hmem with hhead | htail
      · obtain ⟨hk, hg⟩ := Prod.mk.injEq k g k' g' |>.mp hhead
        subst hk; subst hg
        have hred := charging_step_redirect ga s k g uc hga h1
        rw [hstep] at hred
        simp only at hred
        constructor
        · rw [hred.2]
          simp
        · have hnot := charging_go_alookup_not_mem ga k rest s1 uc1 hnd.1
          rw [hgo] at hnot
          simp only at hnot
          rw [hnot, hred.1, alookup_aset_self]
      · have hs1 := charging_step_shape ga s k' g' uc
        rw [hstep] at hs1
        obtain ⟨cm, rn, hs1⟩ := hs1
        simp only at hs1
        have hih := ih s1 uc1 htail hnd.2
        rw [hgo] at hih
        simp only at hih
        have hact : redirectAction s1 k g = redirectAction s k g := by
          rw [hs1]; rfl
        constructor
        · rw [← hact]
          exact List.mem_append_right _ hih.1
        · exact hih.2

/-- Claim C1 (amended): for a grant whose derived action is REDIRECT and
whose service state is neither REDIRECTED nor RESTRICTED,
`get_charging_updates` emits a service action carrying the redirect
server, the restrict-rule ids, the AMBR and the rule ids/definitions
attached to that charging key, and the grant's service state passes
through SERVICE_REDIRECTED but — because the switch falls through into
the RESTRICT_ACCESS case — ends at SERVICE_RESTRICTED. -/
theorem c1_redirect_action_emitted (s : Session)
    (uc : SessionStateUpdateCriteria) (ga : ChargingGrant → ServiceActionType)
    (k : CreditKey) (g : ChargingGrant) (req : UpdateSessionRequest)
    (acts : List ServiceAction)
    (hmem : (k, g) ∈ s.credit_map) (hnd : (s.credit_map.map Prod.fst).Nodup)
    (hga : ga g = ServiceActionType.REDIRECT)
    (h1 : g.service_state ≠ ServiceState.SERVICE_REDIRECTED) :
    redirectAction s k g ∈ (s.get_charging_updates ga req acts uc).2.1 ∧
    alookup k ((s.get_charging_updates ga req acts uc).2.2.1).credit_map =
      some { g with service_state := ServiceState.SERVICE_RESTRICTED } := by
  have hgo := charging_go_redirect ga k g hga h1 s.credit_map s uc hmem hnd
  rcases h : s.charging_go ga s.credit_map uc with ⟨s', uc', crs, actsNew⟩
  rw [h] at hgo
  simp only at hgo
  simp only [Session.get_charging_updates, h]
  exact ⟨List.mem_append_right _ hgo.1, hgo.2⟩

/-- Claim C1 is false on the code: after `get_charging_updates` handles a
REDIRECT grant, the grant's service state is SERVICE_RESTRICTED, not
SERVICE_REDIRECTED — the REDIRECT case of the switch falls through into
RESTRICT_ACCESS, which overwrites the state it just set. -/
theorem c1_counterexample :
    ((alookup ⟨10, 0⟩ ((s1c.get_charging_updates
          (fun _ => ServiceActionType.REDIRECT) UpdateSessionRequest.empty []
          emptyUC).2.2.1).credit_map).map ChargingGrant.service_state =
        some ServiceState.SERVICE_RESTRICTED) ∧
    ¬((alookup ⟨10, 0⟩ ((s1c.get_charging_updates
          (fun _ => ServiceActionType.REDIRECT) UpdateSessionRequest.empty []
          emptyUC).2.2.1).credit_map).map ChargingGrant.service_state =
        some ServiceState.SERVICE_REDIRECTED) := by
  constructor <;> decide

/-- Witness for C1 at the concrete session `s1c`. -/
theorem c1_redirect_action_emitted_witness :
    (((⟨10, 0⟩ : CreditKey), gRed) ∈ s1c.credit_map ∧
     (s1c.credit_map.map Prod.fst).Nodup ∧
     (fun _ : ChargingGrant => ServiceActionType.REDIRECT) gRed =
       ServiceActionType.REDIRECT ∧
     gRed.service_state ≠ ServiceState.SERVICE_REDIRECTED) ∧
    (redirectAction s1c ⟨10, 0⟩ gRed ∈
        (s1c.get_charging_updates (fun _ => ServiceActionType.REDIRECT)
          UpdateSessionRequest.empty [] emptyUC).2.1 ∧
      alookup ⟨10, 0⟩ ((s1c.get_charging_updates
          (fun _ => ServiceActionType.REDIRECT) UpdateSessionRequest.empty []
          emptyUC).2.2.1).credit_map =
        some { gRed with service_state := ServiceState.SERVICE_RESTRICTED }) :=
  ⟨⟨by decide, by decide, rfl, by decide⟩,
   c1_redirect_action_emitted s1c emptyUC (fun _ => ServiceActionType.REDIRECT)
     ⟨10, 0⟩ gRed UpdateSessionRequest.empty [] (by decide) (by decide) rfl
     (by decide)⟩

/-- `apply_update_criteria` is the phase chain between its prologue and
tail. -/
theorem apply_update_criteria_eq (s : Session)
    (uc : SessionStateUpdateCriteria) :
    s.apply_update_criteria uc =
      chainPhases (rulePhases uc) (s.apply_prologue uc) := rfl

/-- A phase fails exactly when some entry is reached whose merge step
fails there. -/
theorem processList_eq_none_iff {α : Type} (f : Session → α → Option Session)
    (l : List α) : ∀ s : Session,
      processList f s l = none ↔
        ∃ a s', entryReached f s l a s' ∧ f s' a = none := by
  induction l with
  | nil =>
      intro s
      simp only [processList, entryReached]
      constructor
      · intro h; cases h
      · rintro ⟨a, s', ⟨l1, l2, hdec, _⟩, _⟩
        exact absurd hdec (by simp)
  | cons b rest ih =>
      intro s
      rw [show processList f s (b :: rest) =
        (match f s b with
         | none => none
         | some s1 => processList f s1 rest) from rfl]
      cases hb : f s b with
      | none =>
          simp only [iff_true_intro rfl, true_iff]
          exact ⟨b, s, ⟨[], rest, rfl, rfl⟩, hb⟩
      | some s1 =>
          rw [ih s1]
          constructor
          · rintro ⟨a, s', ⟨l1, l2, hdec, hpre⟩, hnone⟩
            refine ⟨a, s', ⟨b :: l1, l2, by rw [hdec]; rfl, ?_⟩, hnone⟩
            rw [show processList f s (b :: l1) =
              (match f s b with
               | none => none
               | some t => processList f t l1) from rfl, hb]
            exact hpre
          · rintro ⟨a, s', ⟨l1, l2, hdec, hpre⟩, hnone⟩
            cases l1 with
            | nil =>
                simp only [List.nil_append, List.cons.injEq] at hdec
                obtain ⟨hab, _⟩ := hdec
                simp only [processList, Option.some.injEq] at hpre
                rw [← hab, ← hpre] at hnone
                rw [hnone] at hb
                cases hb
            | cons c l1' =>
                simp only [List.cons_append, List.cons.injEq] at hdec
                obtain ⟨hbc, hrest⟩ := hdec
                rw [show processList f s (c :: l1') =
                  (match f s c with
                   | none => none
                   | some t => processList f t l1') from rfl] at hpre
                rw [← hbc, hb] at hpre
                exact ⟨a, s', ⟨l1', l2, hrest, hpre⟩, hnone⟩

/-- A phase chain fails exactly when some phase is reached whose run fails
there. -/
theorem chainPhases_eq_none_iff (fs : List (Session → Option Session)) :
    ∀ s : Session,
      chainPhases fs s = none ↔
        ∃ i : Fin fs.length, ∃ s',
          chainPhases (fs.take i.1) s = some s' ∧ fs.get i s' = none := by
  induction fs with
  | nil =>
      intro s
      simp only [chainPhases, List.length_nil]
      constructor
      · intro h; cases h
      · rintro ⟨i, _⟩; exact absurd i.isLt (by simp)
  | cons f fs ih =>
      intro s
      rw [show chainPhases (f :: fs) s = (f s).bind (chainPhases fs) from rfl]
      cases hf : f s with
      | none =>
          simp only [Option.none_bind, iff_true_intro rfl, true_iff]
          exact ⟨⟨0, by simp⟩, s, by simp [chainPhases], hf⟩
      | some s1 =>
          simp only [Option.some_bind]
          rw [ih s1]
          constructor
          · rintro ⟨i, s', h1, h2⟩
            refine ⟨⟨i.1 + 1, by simp [i.isLt]⟩, s', ?_, ?_⟩
            · rw [show (f :: fs).take (i.1 + 1) = f :: fs.take i.1 from rfl]
              rw [show chainPhases (f :: fs.take i.1) s =
                (f s).bind (chainPhases (fs.take i.1)) from rfl, hf]
              exact h1
            · simpa using h2
          · rintro ⟨i, s', h1, h2⟩
            rcases i with ⟨iv, hlt⟩
            cases iv with
            | zero =>
                simp only [List.take_zero, chainPhases, Option.some.injEq] at h1
                simp only [List.get] at h2
                rw [← h1] at h2
                rw [h2] at hf
                cases hf
            | succ j =>
                refine ⟨⟨j, by simpa using hlt⟩, s', ?_, ?_⟩
                · rw [show (f :: fs).take (j + 1) = f :: fs.take j from rfl] at h1
                  rw [show chainPhases (f :: fs.take j) s =
                    (f s).bind (chainPhases (fs.take j)) from rfl, hf] at h1
                  exact h1
                · simpa using h2

/-- Failure condition of one static-rule install merge. -/
theorem staticInstallStep_eq_none_iff (uc : SessionStateUpdateCriteria)
    (s : Session) (rid : String) :
    staticInstallStep uc s rid = none ↔
      (s.is_static_rule_installed rid = true ∨
       (alookup rid uc.new_rule_lifetimes = none ∧
        s.is_static_rule_scheduled rid = false)) := by
  unfold staticInstallStep
  repeat' split
  all_goals simp_all

/-- Failure condition of one static-rule uninstall merge. -/
theorem staticUninstallStep_eq_none_iff (s : Session) (rid : String) :
    staticUninstallStep s rid = none ↔
      (s.is_static_rule_installed rid = false ∧
       s.is_static_rule_scheduled rid = false) := by
  unfold staticUninstallStep
  repeat' split
  all_goals simp_all

/-- Failure condition of one static-rule schedule merge. -/
theorem schedStaticStep_eq_none_iff (uc : SessionStateUpdateCriteria)
    (s : Session) (rid : String) :
    schedStaticStep uc s rid = none ↔ s.is_static_rule_scheduled rid = true := by
  unfold schedStaticStep
  repeat' split
  all_goals simp_all

/-- Failure condition of one dynamic-rule install merge. -/
theorem dynInstallStep_eq_none_iff (uc : SessionStateUpdateCriteria)
    (s : Session) (rule : PolicyRule) :
    dynInstallStep uc s rule = none ↔
      (s.is_dynamic_rule_installed rule.id = true ∨
       (alookup rule.id uc.new_rule_lifetimes = none ∧
        s.is_dynamic_rule_scheduled rule.id = false)) := by
  unfold dynInstallStep
  repeat' split
  all_goals simp_all

/-- Failure condition of one dynamic-rule uninstall merge. -/
theorem dynUninstallStep_eq_none_iff (s : Session) (rid : String) :
    dynUninstallStep s rid = none ↔
      (s.is_dynamic_rule_installed rid = false ∧
       s.is_dynamic_rule_scheduled rid = false) := by
  unfold dynUninstallStep
  repeat' split
  all_goals simp_all

/-- Failure condition of one dynamic-rule schedule merge. -/
theorem schedDynStep_eq_none_iff (uc : SessionStateUpdateCriteria)
    (s : Session) (rule : PolicyRule) :
    schedDynStep uc s rule = none ↔
      s.is_dynamic_rule_scheduled rule.id = true := by
  unfold schedDynStep
  repeat' split
  all_goals simp_all

/-- Failure condition of one gy-dynamic-rule install merge. -/
theorem gyInstallStep_eq_none_iff (uc : SessionStateUpdateCriteria)
    (s : Session) (rule : PolicyRule) :
    gyInstallStep uc s rule = none ↔
      (s.is_gy_dynamic_rule_installed rule.id = true ∨
       alookup rule.id uc.new_rule_lifetimes = none) := by
  unfold gyInstallStep
  repeat' split
  all_goals simp_all

/-- Failure condition of one gy-dynamic-rule uninstall merge. -/
theorem gyUninstallStep_eq_none_iff (s : Session) (rid : String) :
    gyUninstallStep s rid = none ↔
      s.is_gy_dynamic_rule_installed rid = false := by
  unfold gyUninstallStep
  repeat' split
  all_goals simp_all

/-- Failure condition of one restrict-rule install merge. -/
theorem restrictInstallStep_eq_none_iff (uc : SessionStateUpdateCriteria)
    (s : Session) (rid : String) :
    restrictInstallStep uc s rid = none ↔
      (s.is_restrict_rule_installed rid = true ∨
       alookup rid uc.new_rule_lifetimes = none) := by
  unfold restrictInstallStep
  repeat' split
  all_goals simp_all

/-- Failure condition of one restrict-rule uninstall merge. -/
theorem restrictUninstallStep_eq_none_iff (s : Session) (rid : String) :
    restrictUninstallStep s rid = none ↔
      s.is_restrict_rule_installed rid = false := by
  unfold restrictUninstallStep
  repeat' split
  all_goals simp_all

/-- Each phase of `apply_update_criteria` fails exactly on its claimed
merge-precondition violation. -/
theorem rulePhases_get_eq_none_iff (uc : SessionStateUpdateCriteria)
    (i : Fin (rulePhases uc).length) (s' : Session) :
    (rulePhases uc).get i s' = none ↔ phaseViolation uc i.1 s' := by
  fin_cases i <;>
    first
      | (simp only [rulePhases, List.get]
         rw [processList_eq_none_iff]
         simp [rulePhases, phaseViolation, staticInstallStep_eq_none_iff,
           staticUninstallStep_eq_none_iff, schedStaticStep_eq_none_iff,
           dynInstallStep_eq_none_iff, dynUninstallStep_eq_none_iff,
           schedDynStep_eq_none_iff, gyInstallStep_eq_none_iff,
           gyUninstallStep_eq_none_iff, restrictInstallStep_eq_none_iff,
           restrictUninstallStep_eq_none_iff])
      | exact Iff.intro (fun h => Option.noConfusion h) (fun h => False.elim h)

/-- Claim C8 (amended): `apply_update_criteria` returns false exactly when
the journal contains an entry that, at the moment it is processed (phases
in source order, earlier merges already applied), asks to install a rule
that is already installed, to uninstall a rule that is neither installed
nor scheduled, to schedule a rule that is already scheduled, or to
install a rule with no lifetime recorded in the journal that is (for
static and dynamic rules) not currently scheduled; on all other journals
it returns true. -/
theorem c8_apply_failure_iff (s : Session) (uc : SessionStateUpdateCriteria) :
    s.apply_update_criteria uc = none ↔
      ∃ i : Fin (rulePhases uc).length, ∃ s',
        chainPhases ((rulePhases uc).take i.1) (s.apply_prologue uc) = some s' ∧
        phaseViolation uc i.1 s' := by
  rw [apply_update_criteria_eq, chainPhases_eq_none_iff]
  apply exists_congr; intro i
  apply exists_congr; intro s'
  apply and_congr_right; intro _
  exact rulePhases_get_eq_none_iff uc i s'

end MagmaSession

